import Mathlib

/-!
Verification development for the image-generator worker service.

The development shallowly embeds the message-processing pipeline of
`main.py` and the RabbitMQ queue client of
`src/queue/rabbit_mq/rabbit_mq_queue.py`.

Modelling conventions:
* Python exceptions are represented by the inductive `PyExc`.  All the pika
  exception classes named in the source except-clauses (`AMQPError`,
  `StreamLostError`, `ConnectionClosedByBroker`, `ChannelClosedByBroker`)
  are subclasses of `AMQPError`, so the whole connectivity family collapses
  into the single constructor `PyExc.amqpError`; the two distinct catch
  sites (the four-class tuple and the bare `AMQPError` retry catch) are kept
  as two predicates that happen to agree, mirroring the source.
* Floating point similarity metrics are modelled as rationals: the source
  only ever compares metrics with `<` and stores them, never computes with
  them, so any linear order is a faithful model of the comparisons.
* External collaborators (the sentence-transformer comparer, the diffusion
  models, base64 encoding, the broker) are parameters of the embedded
  functions, exactly as the specification declares them out of scope.
* Broker interactions are driven by an `Oracle` giving the outcome of each
  primitive broker call, indexed by how many calls of that kind happened
  before; every call is recorded in an event trace together with the
  client state at the moment of the call.
-/

/-- Python exception values relevant to the embedded code.  Each constructor
stands for one class (or family of classes) of exceptions that the source
raises or catches. -/
inductive PyExc where
  /-- pika `AMQPError` and all of its subclasses, including
  `StreamLostError`, `ConnectionClosedByBroker` and `ChannelClosedByBroker`:
  the connectivity-class failures. -/
  | amqpError
  /-- `TypeError` raised by `json.dumps` on an unserializable payload. -/
  | typeOrValueError
  /-- `UnicodeDecodeError` or `json.JSONDecodeError` raised while decoding a
  message body. -/
  | decodeError
  /-- `ValueError` raised by the pipeline itself on validation failure,
  carrying the validation messages. -/
  | valueError (msg : String)
  /-- `RuntimeError` raised by the pipeline when an outbound push reports
  failure. -/
  | runtimeError (msg : String)
  /-- the generic `Exception` raised by `FacadeModel.generate_by_class` for
  an unknown class name. -/
  | unknownClass
  /-- `KeyboardInterrupt`; in Python it is not a subclass of `Exception`. -/
  | keyboardInterrupt
  /-- any other `Exception`-class failure. -/
  | otherError
deriving DecidableEq, Repr

/-- Membership in the except-clause tuple `(AMQPError, StreamLostError,
ConnectionClosedByBroker, ChannelClosedByBroker)` used by the first catch of
every broker-facing operation.  All four classes are subclasses of
`AMQPError`, so the tuple catches exactly the `AMQPError` family. -/
def PyExc.isConnTuple : PyExc → Bool
  | .amqpError => true
  | _ => false

/-- Membership in the bare `pika_exceptions.AMQPError` class used by the
retry catch of every broker-facing operation. -/
def PyExc.isAMQP : PyExc → Bool
  | .amqpError => true
  | _ => false

/-- Membership in the `(TypeError, ValueError)` tuple of the push
serialization catch.  Python `ValueError` instances are covered by both the
`typeOrValueError` and the `valueError` constructors. -/
def PyExc.isTypeOrValue : PyExc → Bool
  | .typeOrValueError => true
  | .valueError _ => true
  | _ => false

/-- Membership in the `(UnicodeDecodeError, json.JSONDecodeError)` tuple of
the pop decode catch. -/
def PyExc.isDecodeCls : PyExc → Bool
  | .decodeError => true
  | _ => false

/-- Whether the value is an instance of the Python class `Exception`.
`KeyboardInterrupt` derives from `BaseException` but not from `Exception`,
so a bare `except Exception` clause does not catch it. -/
def PyExc.isExceptionCls : PyExc → Bool
  | .keyboardInterrupt => false
  | _ => true

/-! ## Pipeline data model (main.py) -/

/-- Decoded inbound message body.  `body.get("user_id")` and
`body.get("message")` in the source return the field value or `None`;
a field is modelled as `Option String`. -/
structure InBody where
  user_id : Option String
  message : Option String
deriving DecidableEq, Repr

/-- Python truthiness of `body.get(field)` for a string-valued field:
`None` and the empty string are falsy. -/
def pyTruthy : Option String → Bool
  | none => false
  | some s => !(s == "")

/-- Result dictionary of `validate_body`. -/
structure ValidationRes where
  error : Bool
  messages : String
deriving DecidableEq, Repr

/-- Validation message appended when the user_id field is falsy.  The source
text is Russian; the quote characters around the field name are omitted. -/
def userIdMissingMsg : String := "Поле user_id отсутствует в сообщении"

/-- Validation message appended when the message field is falsy. -/
def messageMissingMsg : String := "Поле message отсутствует в сообщении"

/-- Embedding of `validate_body` from main.py: collects a message for each
falsy required field and reports an error when any message was collected. -/
def validate_body (body : InBody) : ValidationRes :=
  let msgs : List String :=
    (if pyTruthy body.user_id then [] else [userIdMissingMsg]) ++
      (if pyTruthy body.message then [] else [messageMissingMsg])
  { error := decide (0 < msgs.length), messages := String.intercalate "\n" msgs }

/-- Result of one call of the similarity comparer built by
`message_compare_carrier`: the `is_similar` flag and the `metric` distance. -/
structure SimRes where
  is_similar : Bool
  metric : ℚ
deriving DecidableEq, Repr

/-- Loop of `get_relevant_class`: walks the class list in order carrying the
current best metric (`max_value`, initially the sentinel) and the current
best class. -/
def get_relevant_class_go (comparer : String → String → SimRes) (message : String) :
    List String → ℚ → Option String → Option String
  | [], _, acc => acc
  | cl :: rest, max_value, acc =>
    let res := comparer cl message
    if res.is_similar = true ∧ res.metric < max_value then
      get_relevant_class_go comparer message rest res.metric (some cl)
    else
      get_relevant_class_go comparer message rest max_value acc

/-- Embedding of `get_relevant_class` from main.py: nearest-neighbour choice
over the candidate classes with sentinel distance 1.0. -/
def get_relevant_class (classes : List String) (message : String)
    (comparer : String → String → SimRes) : Option String :=
  get_relevant_class_go comparer message classes 1 none

/-- Generated artifact as seen by the pipeline: the result of
`generate_by_class(...)[0]`, carrying its raw bytes (`tobytes`) and its
shape (`list(image_array.shape)`). -/
structure GenImage where
  bytes : List Nat
  shape : List Nat
deriving DecidableEq, Repr

/-- Embedding of `FacadeModel` from src/model/facade_model.py.  The two
concrete diffusion models are external collaborators; each is modelled as a
function from the generation input to the outcome of its
preprocess-predict-postprocess chain (already indexed at position 0). -/
structure FacadeModel (ι : Type) where
  cat_model : ι → Except PyExc GenImage
  butterfly_model : ι → Except PyExc GenImage

/-- Embedding of `FacadeModel.generate_by_class`: dispatches on the class
name string and raises a generic exception for any other name. -/
def FacadeModel.generate_by_class {ι : Type} (fm : FacadeModel ι) (cl : String) (input_data : ι) :
    Except PyExc GenImage :=
  if cl == "cat" then fm.cat_model input_data
  else if cl == "butterfly" then fm.butterfly_model input_data
  else .error .unknownClass

/-- Transport envelope from src/queue/queue_base.py: decoded body plus the
broker delivery tag. -/
structure Message (β : Type) where
  body : β
  delivery_tag : Nat
deriving DecidableEq, Repr

/-- Outbound result dictionary built by `process_queue`. -/
structure ResultPayload where
  user_id : Option String
  image_b64 : Option String
  shape : Option (List Nat)
  error : Bool
  message : String
deriving DecidableEq, Repr

/-- Shape of the synthetic noise input `np.random.randn(1, 3, 64, 64)`
created for every generation call. -/
def noiseShape : List Nat := [1, 3, 64, 64]

/-- Message of the `RuntimeError` raised when the outbound push fails. -/
def pushFailMsg : String := "Не удалось отправить результат в очередь ответов"

/-- Environment of one `process_queue` iteration: the similarity comparer,
the model facade with the noise drawn for this iteration, the base64
encoder, and the outcomes of the outbound push and of the inbound ack and
nack broker calls. -/
structure PipeEnv (ι : Type) where
  comparer : String → String → SimRes
  facade : FacadeModel ι
  noise : ι
  b64 : List Nat → String
  pushRes : ResultPayload → Except PyExc Bool
  ackRes : Except PyExc Bool
  nackRes : Except PyExc Bool

/-- Observable action of the pipeline while processing one message. -/
inductive PAct where
  /-- `model_facade.generate_by_class(relevant_class, noise)` was invoked;
  records the class and the shape of the synthetic input. -/
  | genCalled (cl : String) (shape : List Nat)
  /-- `uploader_queue.push(queue, payload)` was invoked. -/
  | pushed (queue : String) (p : ResultPayload)
  /-- `receiver_queue.ack(delivery_tag)` was invoked. -/
  | acked (tag : Nat)
  /-- `receiver_queue.nack(delivery_tag, requeue)` was invoked. -/
  | nacked (tag : Nat) (requeue : Bool)
deriving DecidableEq, Repr

/-- Shared tail of both pipeline branches: push the payload to the
"message_uploader" queue, raise `RuntimeError` when the push reports
failure, otherwise ack the inbound message.  Returns the recorded actions
and the exception escaping this fragment, if any. -/
def pushAndAck {ι : Type} (env : PipeEnv ι) (msg : Message InBody) (payload : ResultPayload)
    (acts : List PAct) : List PAct × Option PyExc :=
  match env.pushRes payload with
  | .error e => (acts ++ [.pushed "message_uploader" payload], some e)
  | .ok false => (acts ++ [.pushed "message_uploader" payload], some (.runtimeError pushFailMsg))
  | .ok true =>
    match env.ackRes with
    | .error e => (acts ++ [.pushed "message_uploader" payload, .acked msg.delivery_tag], some e)
    | .ok _ => (acts ++ [.pushed "message_uploader" payload, .acked msg.delivery_tag], none)

/-- Body of the inner `try` block of `process_queue` for one popped message:
validate, classify, generate, encode, push, ack.  Returns the recorded
actions and the exception escaping the block, if any. -/
def process_try {ι : Type} (env : PipeEnv ι) (msg : Message InBody) : List PAct × Option PyExc :=
  let validation_result := validate_body msg.body
  if validation_result.error then ([], some (.valueError validation_result.messages))
  else
    let user_id := msg.body.user_id
    let message := msg.body.message.getD ""
    match get_relevant_class ["cat", "butterfly"] message env.comparer with
    | none =>
      pushAndAck env msg ⟨user_id, none, none, true, "Unknown received class"⟩ []
    | some relevant_class =>
      match env.facade.generate_by_class relevant_class env.noise with
      | .error e => ([.genCalled relevant_class noiseShape], some e)
      | .ok image_array =>
        let image_b64 := env.b64 image_array.bytes
        pushAndAck env msg
          ⟨user_id, some image_b64, some image_array.shape, false, "ok"⟩
          [.genCalled relevant_class noiseShape]

/-- Embedding of the per-message portion of `process_queue`: the inner `try`
block together with its `except Exception` handler, which nacks the inbound
message with `requeue=False`.  The second component is the exception
escaping the per-message boundary, if any (`KeyboardInterrupt` is not an
`Exception` and passes through; so does an exception raised by the nack
call itself). -/
def process_message {ι : Type} (env : PipeEnv ι) (msg : Message InBody) :
    List PAct × Option PyExc :=
  match process_try env msg with
  | (acts, none) => (acts, none)
  | (acts, some e) =>
    if e.isExceptionCls then
      match env.nackRes with
      | .ok _ => (acts ++ [.nacked msg.delivery_tag false], none)
      | .error e₂ => (acts ++ [.nacked msg.delivery_tag false], some e₂)
    else (acts, some e)

/-! ## RabbitMQ queue client model (src/queue/rabbit_mq/rabbit_mq_queue.py) -/

namespace RabbitMQQueue

/-- Mutable client state of a `RabbitMQQueue` instance that the embedded
operations observe: liveness of the physical connection and of the channel
(`is_closed` checks), whether the prefetch limit is applied to the current
channel, whether the bound queue has been declared at the broker, and the
`_needs_reinit` flag. -/
structure QState where
  connOpen : Bool
  chanOpen : Bool
  prefetchApplied : Bool
  queueDeclared : Bool
  needsReinit : Bool
deriving DecidableEq, Repr

/-- State of a freshly constructed, fully connected instance. -/
def readyState : QState :=
  { connOpen := true, chanOpen := true, prefetchApplied := true,
    queueDeclared := true, needsReinit := false }

/-- The CONNECTED condition of the specification state machine, plus the
channel-scoped facts (prefetch applied, queue declared) that the recovery
transitions are required to restore. -/
def QState.ready (s : QState) : Prop :=
  s.connOpen = true ∧ s.chanOpen = true ∧ s.needsReinit = false ∧
    s.prefetchApplied = true ∧ s.queueDeclared = true

instance (s : QState) : Decidable s.ready := by
  unfold QState.ready
  infer_instance

/-- Invariant of reachable client states: an open channel always has the
prefetch limit applied (the source applies `basic_qos` immediately after
every channel creation), and the bound queue is declared (declaration is
broker-side and persistent; the constructor performed it). -/
def QState.inv (s : QState) : Prop :=
  (s.chanOpen = true → s.prefetchApplied = true) ∧ s.queueDeclared = true

instance (s : QState) : Decidable s.inv := by
  unfold QState.inv
  infer_instance

/-- Kind of a primitive pika call issued by the client. -/
inductive CallKind where
  | connectK
  | reopenK
  | qdeclareK
  | publishK
  | getK
  | ackK
  | nackK
  | passiveK
deriving DecidableEq, Repr

/-- One primitive call event: its kind, whether it was issued from inside
`_ensure_channel` (recovery) rather than as the operation body itself, and
the client state at the moment of the call. -/
structure QEvent where
  kind : CallKind
  inEnsure : Bool
  stAt : QState
deriving DecidableEq, Repr

/-- Machine configuration threaded through the embedded methods: the client
state and the trace of primitive calls issued so far. -/
structure QM where
  st : QState
  tr : List QEvent
deriving DecidableEq, Repr

/-- Number of events of one kind in a trace; used to index the oracle so
that successive calls of the same primitive can behave differently. -/
def countK (k : CallKind) : List QEvent → Nat
  | [] => 0
  | ev :: rest => (if ev.kind = k then 1 else 0) + countK k rest

/-- Outcome of a unit-valued broker primitive.  A failure carries the raised
exception and whether the failure also closed the physical connection or
the channel (broker-initiated closes do). -/
inductive BrokerOut where
  | okB
  | failB (e : PyExc) (dropConn dropChan : Bool)
deriving DecidableEq, Repr

/-- Outcome of `basic_get`: no message, a delivery with its tag and raw
body, or a failure. -/
inductive GetOut where
  | emptyG
  | msgG (tag : Nat) (raw : String)
  | failG (e : PyExc) (dropConn dropChan : Bool)
deriving DecidableEq, Repr

/-- Outcome of a passive `queue_declare`: the queue message count, or a
failure. -/
inductive PassiveOut where
  | countP (n : Nat)
  | failP (e : PyExc) (dropConn dropChan : Bool)
deriving DecidableEq, Repr

/-- Broker and serializer behaviour, the external world of the client.
Each field gives the outcome of the n-th call of one primitive.
`serialize` models `json.dumps` (deterministic in the payload);
`deserialize` models `body.decode` plus `json.loads`. -/
structure Oracle (α β : Type) where
  connect : Nat → Option PyExc
  reopen : Nat → Option PyExc
  qdeclare : Nat → BrokerOut
  publish : Nat → BrokerOut
  basicGet : Nat → GetOut
  basicAck : Nat → BrokerOut
  basicNack : Nat → BrokerOut
  passive : Nat → PassiveOut
  serialize : α → Option PyExc
  deserialize : String → Except PyExc β

/-- Applies the liveness damage of a failed broker call to the state. -/
def QState.applyDrop (s : QState) (dropConn dropChan : Bool) : QState :=
  { s with connOpen := s.connOpen && !dropConn, chanOpen := s.chanOpen && !dropChan }

/-- Appends the event of a primitive call to the trace. -/
def record (k : CallKind) (g : Bool) (m : QM) : QM :=
  { m with tr := m.tr ++ [⟨k, g, m.st⟩] }

/-- Sets the `_needs_reinit` flag. -/
def setReinit (m : QM) : QM :=
  { m with st := { m.st with needsReinit := true } }

/-- Embedding of `_connect`: `BlockingConnection`, `connection.channel()`,
`basic_qos`, and the flag reset, collapsed into one primitive.  On success
the instance is fully connected with prefetch applied; on failure the state
is left unchanged (the dominant real behaviour, the constructor raising
before anything is assigned). -/
def connectPrim {α β : Type} (o : Oracle α β) (m : QM) : Except PyExc Unit × QM :=
  let n := countK .connectK m.tr
  let m₁ := record .connectK true m
  match o.connect n with
  | Option.none =>
    (.ok (), { m₁ with st := { connOpen := true, chanOpen := true, prefetchApplied := true,
                               queueDeclared := m₁.st.queueDeclared, needsReinit := false } })
  | Option.some e => (.error e, m₁)

/-- Embedding of the channel recreation of the reinit branch of
`_ensure_channel`: `connection.channel()` followed by `basic_qos`,
collapsed into one primitive.  The old channel was already closed. -/
def reopenPrim {α β : Type} (o : Oracle α β) (m : QM) : Except PyExc Unit × QM :=
  let n := countK .reopenK m.tr
  let m₁ := record .reopenK true m
  match o.reopen n with
  | Option.none =>
    (.ok (), { m₁ with st := { m₁.st with chanOpen := true, prefetchApplied := true } })
  | Option.some e => (.error e, m₁)

/-- Embedding of `queue_declare` (non-passive), used by `_declare_queue` and
by the public `declare_queue`.  The flag says whether the call was issued
from inside `_ensure_channel`. -/
def qdeclarePrim {α β : Type} (o : Oracle α β) (g : Bool) (m : QM) : Except PyExc Unit × QM :=
  let n := countK .qdeclareK m.tr
  let m₁ := record .qdeclareK g m
  match o.qdeclare n with
  | .okB => (.ok (), { m₁ with st := { m₁.st with queueDeclared := true } })
  | .failB e dc dh => (.error e, { m₁ with st := m₁.st.applyDrop dc dh })

/-- Embedding of `_ensure_channel`: reconnect (and re-declare) when the
connection is closed; otherwise close and recreate the channel, reapply
prefetch and re-declare the queue when the reinit flag is set or the
channel is closed; otherwise do nothing. -/
def ensure_channel {α β : Type} (o : Oracle α β) (m : QM) : Except PyExc Unit × QM :=
  if m.st.connOpen = false then
    match connectPrim o m with
    | (.error e, m₁) => (.error e, m₁)
    | (.ok _, m₁) =>
      match qdeclarePrim o true m₁ with
      | (.error e, m₂) => (.error e, m₂)
      | (.ok _, m₂) => (.ok (), { m₂ with st := { m₂.st with needsReinit := false } })
  else if m.st.needsReinit = true ∨ m.st.chanOpen = false then
    let m₀ := { m with st := { m.st with chanOpen := false } }
    match reopenPrim o m₀ with
    | (.error e, m₁) => (.error e, m₁)
    | (.ok _, m₁) =>
      match qdeclarePrim o true m₁ with
      | (.error e, m₂) => (.error e, m₂)
      | (.ok _, m₂) => (.ok (), { m₂ with st := { m₂.st with needsReinit := false } })
  else (.ok (), m)

/-- Embedding of `_push_internal`: ensure the channel, serialize the
payload with `json.dumps`, then `basic_publish` a persistent message. -/
def push_internal {α β : Type} (o : Oracle α β) (data : α) (m : QM) :
    Except PyExc Bool × QM :=
  match ensure_channel o m with
  | (.error e, m₁) => (.error e, m₁)
  | (.ok _, m₁) =>
    match o.serialize data with
    | Option.some e => (.error e, m₁)
    | Option.none =>
      let n := countK .publishK m₁.tr
      let m₂ := record .publishK false m₁
      match o.publish n with
      | .okB => (.ok true, m₂)
      | .failB e dc dh => (.error e, { m₂ with st := m₂.st.applyDrop dc dh })

/-- Embedding of `push`: try `_push_internal`; on a connectivity-class
failure force `_ensure_channel` and retry once, returning `False` and
marking the instance for reinit when the retry fails with an `AMQPError`;
a `(TypeError, ValueError)` serialization failure returns `False`
immediately; anything else propagates. -/
def push {α β : Type} (o : Oracle α β) (data : α) (m : QM) : Except PyExc Bool × QM :=
  match push_internal o data m with
  | (.ok b, m') => (.ok b, m')
  | (.error e, m') =>
    if e.isConnTuple then
      match ensure_channel o m' with
      | (.error e₂, m₂) =>
        if e₂.isAMQP then (.ok false, setReinit m₂) else (.error e₂, m₂)
      | (.ok _, m₂) =>
        match push_internal o data m₂ with
        | (.ok b, m₃) => (.ok b, m₃)
        | (.error e₃, m₃) =>
          if e₃.isAMQP then (.ok false, setReinit m₃) else (.error e₃, m₃)
    else if e.isTypeOrValue then (.ok false, m')
    else (.error e, m')

/-- Embedding of `_pop_internal`: ensure the channel, `basic_get` without
auto-ack, return `None` on an empty queue, otherwise decode the body. -/
def pop_internal {α β : Type} (o : Oracle α β) (m : QM) :
    Except PyExc (Option (Message β)) × QM :=
  match ensure_channel o m with
  | (.error e, m₁) => (.error e, m₁)
  | (.ok _, m₁) =>
    let n := countK .getK m₁.tr
    let m₂ := record .getK false m₁
    match o.basicGet n with
    | .failG e dc dh => (.error e, { m₂ with st := m₂.st.applyDrop dc dh })
    | .emptyG => (.ok none, m₂)
    | .msgG tag raw =>
      match o.deserialize raw with
      | .error e => (.error e, m₂)
      | .ok b => (.ok (some ⟨b, tag⟩), m₂)

/-- Embedding of `pop`: try `_pop_internal`; on a connectivity-class failure
force `_ensure_channel` and retry once, returning `None` and marking for
reinit when the retry fails with an `AMQPError`; a decode failure returns
`None` immediately; anything else propagates. -/
def pop {α β : Type} (o : Oracle α β) (m : QM) :
    Except PyExc (Option (Message β)) × QM :=
  match pop_internal o m with
  | (.ok r, m') => (.ok r, m')
  | (.error e, m') =>
    if e.isConnTuple then
      match ensure_channel o m' with
      | (.error e₂, m₂) =>
        if e₂.isAMQP then (.ok none, setReinit m₂) else (.error e₂, m₂)
      | (.ok _, m₂) =>
        match pop_internal o m₂ with
        | (.ok r, m₃) => (.ok r, m₃)
        | (.error e₃, m₃) =>
          if e₃.isAMQP then (.ok none, setReinit m₃) else (.error e₃, m₃)
    else if e.isDecodeCls then (.ok none, m')
    else (.error e, m')

/-- Embedding of `_ack_internal`: ensure the channel, then `basic_ack`. -/
def ack_internal {α β : Type} (o : Oracle α β) (m : QM) : Except PyExc Bool × QM :=
  match ensure_channel o m with
  | (.error e, m₁) => (.error e, m₁)
  | (.ok _, m₁) =>
    let n := countK .ackK m₁.tr
    let m₂ := record .ackK false m₁
    match o.basicAck n with
    | .okB => (.ok true, m₂)
    | .failB e dc dh => (.error e, { m₂ with st := m₂.st.applyDrop dc dh })

/-- Embedding of `ack`: try `_ack_internal`; on a connectivity-class failure
force `_ensure_channel` and retry once, returning `False` and marking for
reinit when the retry fails with an `AMQPError`.  There is no generic
catch: any other exception propagates. -/
def ack {α β : Type} (o : Oracle α β) (m : QM) : Except PyExc Bool × QM :=
  match ack_internal o m with
  | (.ok b, m') => (.ok b, m')
  | (.error e, m') =>
    if e.isConnTuple then
      match ensure_channel o m' with
      | (.error e₂, m₂) =>
        if e₂.isAMQP then (.ok false, setReinit m₂) else (.error e₂, m₂)
      | (.ok _, m₂) =>
        match ack_internal o m₂ with
        | (.ok b, m₃) => (.ok b, m₃)
        | (.error e₃, m₃) =>
          if e₃.isAMQP then (.ok false, setReinit m₃) else (.error e₃, m₃)
    else (.error e, m')

/-- Embedding of `_nack_internal`: ensure the channel, then `basic_nack`
with the given requeue flag. -/
def nack_internal {α β : Type} (o : Oracle α β) (m : QM) : Except PyExc Bool × QM :=
  match ensure_channel o m with
  | (.error e, m₁) => (.error e, m₁)
  | (.ok _, m₁) =>
    let n := countK .nackK m₁.tr
    let m₂ := record .nackK false m₁
    match o.basicNack n with
    | .okB => (.ok true, m₂)
    | .failB e dc dh => (.error e, { m₂ with st := m₂.st.applyDrop dc dh })

/-- Embedding of `nack`: same retry-once structure as `ack`. -/
def nack {α β : Type} (o : Oracle α β) (m : QM) : Except PyExc Bool × QM :=
  match nack_internal o m with
  | (.ok b, m') => (.ok b, m')
  | (.error e, m') =>
    if e.isConnTuple then
      match ensure_channel o m' with
      | (.error e₂, m₂) =>
        if e₂.isAMQP then (.ok false, setReinit m₂) else (.error e₂, m₂)
      | (.ok _, m₂) =>
        match nack_internal o m₂ with
        | (.ok b, m₃) => (.ok b, m₃)
        | (.error e₃, m₃) =>
          if e₃.isAMQP then (.ok false, setReinit m₃) else (.error e₃, m₃)
    else (.error e, m')

/-- Embedding of `_empty_internal`: ensure the channel, passive
`queue_declare`, compare the message count with zero. -/
def empty_internal {α β : Type} (o : Oracle α β) (m : QM) : Except PyExc Bool × QM :=
  match ensure_channel o m with
  | (.error e, m₁) => (.error e, m₁)
  | (.ok _, m₁) =>
    let n := countK .passiveK m₁.tr
    let m₂ := record .passiveK false m₁
    match o.passive n with
    | .countP k => (.ok (decide (k = 0)), m₂)
    | .failP e dc dh => (.error e, { m₂ with st := m₂.st.applyDrop dc dh })

/-- Embedding of `empty`: try `_empty_internal`; on a connectivity-class
failure force `_ensure_channel` and retry once, returning `True` and
marking for reinit when the retry fails with an `AMQPError`; any other
`Exception`-class failure of the first attempt returns `True`
(considered empty on error); `KeyboardInterrupt` propagates, as does a
non-`AMQPError` raised inside the retry handler. -/
def empty {α β : Type} (o : Oracle α β) (m : QM) : Except PyExc Bool × QM :=
  match empty_internal o m with
  | (.ok b, m') => (.ok b, m')
  | (.error e, m') =>
    if e.isConnTuple then
      match ensure_channel o m' with
      | (.error e₂, m₂) =>
        if e₂.isAMQP then (.ok true, setReinit m₂) else (.error e₂, m₂)
      | (.ok _, m₂) =>
        match empty_internal o m₂ with
        | (.ok b, m₃) => (.ok b, m₃)
        | (.error e₃, m₃) =>
          if e₃.isAMQP then (.ok true, setReinit m₃) else (.error e₃, m₃)
    else if e.isExceptionCls then (.ok true, m')
    else (.error e, m')

/-- Result dictionary of `ping`. -/
structure PingRes where
  error : Bool
  message : String
deriving DecidableEq, Repr

/-- Rendering of an exception into the ping failure message; stands for the
Python `str(e)`. -/
def excStr : PyExc → String
  | .amqpError => "AMQPError"
  | .typeOrValueError => "TypeError"
  | .decodeError => "DecodeError"
  | .valueError s => s
  | .runtimeError s => s
  | .unknownClass => "Unknown class"
  | .keyboardInterrupt => "KeyboardInterrupt"
  | .otherError => "Exception"

/-- One ping attempt: ensure the channel, then a passive `queue_declare` on
the bound queue. -/
def ping_attempt {α β : Type} (o : Oracle α β) (m : QM) : Except PyExc Unit × QM :=
  match ensure_channel o m with
  | (.error e, m₁) => (.error e, m₁)
  | (.ok _, m₁) =>
    let n := countK .passiveK m₁.tr
    let m₂ := record .passiveK false m₁
    match o.passive n with
    | .countP _ => (.ok (), m₂)
    | .failP e dc dh => (.error e, { m₂ with st := m₂.st.applyDrop dc dh })

/-- Embedding of `ping`: attempt a passive declare; on a connectivity-class
failure retry once, and on any `Exception`-class failure of the retry mark
for reinit and report the error result; any other `Exception`-class
failure of the first attempt reports the error result without marking;
`KeyboardInterrupt` propagates. -/
def ping {α β : Type} (o : Oracle α β) (m : QM) : Except PyExc PingRes × QM :=
  match ping_attempt o m with
  | (.ok _, m₁) => (.ok ⟨false, "OK"⟩, m₁)
  | (.error e, m₁) =>
    if e.isConnTuple then
      match ping_attempt o m₁ with
      | (.ok _, m₂) => (.ok ⟨false, "OK"⟩, m₂)
      | (.error e₂, m₂) =>
        if e₂.isExceptionCls then
          (.ok ⟨true, "RabbitMQ ping failed after retry: " ++ excStr e₂⟩, setReinit m₂)
        else (.error e₂, m₂)
    else if e.isExceptionCls then
      (.ok ⟨true, "RabbitMQ ping failed: " ++ excStr e⟩, m₁)
    else (.error e, m₁)

/-- Embedding of the public `declare_queue`: ensure the channel, declare the
requested queue; on an `AMQPError` (or any other exception) mark for
reinit and return `False`. -/
def declare_queue {α β : Type} (o : Oracle α β) (m : QM) : Except PyExc Bool × QM :=
  match ensure_channel o m with
  | (.error e, m₁) =>
    if e.isExceptionCls then (.ok false, setReinit m₁) else (.error e, m₁)
  | (.ok _, m₁) =>
    match qdeclarePrim o false m₁ with
    | (.ok _, m₂) => (.ok true, m₂)
    | (.error e, m₂) =>
      if e.isExceptionCls then (.ok false, setReinit m₂) else (.error e, m₂)

end RabbitMQQueue

namespace RabbitMQQueue

/-- An event is an operation-body broker call (as opposed to a recovery call
issued from inside `_ensure_channel`): the publish, get, ack, nack and
passive-declare primitives are only ever issued as operation bodies, and a
non-passive declare is an operation body exactly when it was not issued
from inside `_ensure_channel`. -/
def QEvent.isOpCall (ev : QEvent) : Prop :=
  ev.kind = .publishK ∨ ev.kind = .getK ∨ ev.kind = .ackK ∨ ev.kind = .nackK ∨
    ev.kind = .passiveK ∨ (ev.kind = .qdeclareK ∧ ev.inEnsure = false)

/-- Every operation-body broker call recorded in the trace was issued in a
fully connected state. -/
def TraceOK (tr : List QEvent) : Prop :=
  ∀ ev ∈ tr, ev.isOpCall → ev.stAt.ready

/-- Machine of a freshly constructed instance: fully connected, no calls
recorded. -/
def initQM : QM := { st := readyState, tr := [] }

/-- A ready state carrying the `_needs_reinit` mark, as left behind by a
failed retry; used to exercise the recovery transitions. -/
def staleState : QState := { readyState with needsReinit := true }

/-- Machine in the stale state with an empty trace. -/
def staleQM : QM := { st := staleState, tr := [] }

/-- Broker oracle for the double-failure scenario: every publish, get, ack,
nack and passive call raises an `AMQPError` that also drops the channel,
while reconnection primitives always succeed. -/
def oAllFail : Oracle Unit Unit :=
  { connect := fun _ => none, reopen := fun _ => none,
    qdeclare := fun _ => .okB,
    publish := fun _ => .failB .amqpError false true,
    basicGet := fun _ => .failG .amqpError false true,
    basicAck := fun _ => .failB .amqpError false true,
    basicNack := fun _ => .failB .amqpError false true,
    passive := fun _ => .failP .amqpError false true,
    serialize := fun _ => none,
    deserialize := fun _ => .ok () }

/-- Broker oracle for the first-failure-then-success scenario: the first
publish, get, ack, nack and passive call raises an `AMQPError` dropping the
connection, the second succeeds, and reconnection primitives succeed. -/
def oFailOnce : Oracle Unit Unit :=
  { connect := fun _ => none, reopen := fun _ => none,
    qdeclare := fun _ => .okB,
    publish := fun n => if n = 0 then .failB .amqpError true true else .okB,
    basicGet := fun n => if n = 0 then .failG .amqpError true true else .emptyG,
    basicAck := fun n => if n = 0 then .failB .amqpError true true else .okB,
    basicNack := fun n => if n = 0 then .failB .amqpError true true else .okB,
    passive := fun n => if n = 0 then .failP .amqpError true true else .countP 0,
    serialize := fun _ => none,
    deserialize := fun _ => .ok () }

/-- Broker oracle where every call succeeds; `basic_get` yields one delivery
whose body fails to decode. -/
def oDecodeFail : Oracle Unit Unit :=
  { connect := fun _ => none, reopen := fun _ => none,
    qdeclare := fun _ => .okB,
    publish := fun _ => .okB,
    basicGet := fun _ => .msgG 5 "not-json",
    basicAck := fun _ => .okB,
    basicNack := fun _ => .okB,
    passive := fun _ => .countP 0,
    serialize := fun _ => none,
    deserialize := fun _ => .error .decodeError }

/-- Broker oracle where every call succeeds and the serializer rejects every
payload with a `TypeError`. -/
def oSerFail : Oracle Unit Unit :=
  { connect := fun _ => none, reopen := fun _ => none,
    qdeclare := fun _ => .okB,
    publish := fun _ => .okB,
    basicGet := fun _ => .emptyG,
    basicAck := fun _ => .okB,
    basicNack := fun _ => .okB,
    passive := fun _ => .countP 0,
    serialize := fun _ => some .typeOrValueError,
    deserialize := fun _ => .ok () }

/-- Broker oracle where every call succeeds. -/
def oAllOk : Oracle Unit Unit :=
  { connect := fun _ => none, reopen := fun _ => none,
    qdeclare := fun _ => .okB,
    publish := fun _ => .okB,
    basicGet := fun _ => .emptyG,
    basicAck := fun _ => .okB,
    basicNack := fun _ => .okB,
    passive := fun _ => .countP 0,
    serialize := fun _ => none,
    deserialize := fun _ => .ok () }

end RabbitMQQueue

/-! ## Concrete collaborator instances used by the witnesses -/

/-- Similarity comparer reporting cat as the sole eligible, nearest class
for the text of scenario A and nothing eligible for any other text. -/
def exComparer : String → String → SimRes := fun a b =>
  if a == "cat" && b == "a cat sleeping" then { is_similar := true, metric := 0 }
  else { is_similar := false, metric := 2 }

/-- Facade whose two concrete models both generate successfully. -/
def exFacade : FacadeModel Unit :=
  { cat_model := fun _ => .ok { bytes := [0, 1, 2], shape := [64, 64, 3] },
    butterfly_model := fun _ => .ok { bytes := [7], shape := [64, 64, 3] } }

/-- Facade whose two concrete models both fail with a generic error. -/
def exFacadeFail : FacadeModel Unit :=
  { cat_model := fun _ => .error .otherError,
    butterfly_model := fun _ => .error .otherError }

/-- Concrete stand-in for the base64 wire encoding. -/
def exB64 : List Nat → String := fun _ => "QUJD"

/-- Pipeline environment where generation, push, ack and nack all succeed. -/
def exEnvOk : PipeEnv Unit :=
  { comparer := exComparer, facade := exFacade, noise := (), b64 := exB64,
    pushRes := fun _ => .ok true, ackRes := .ok true, nackRes := .ok true }

/-- Pipeline environment where every outbound push reports failure. -/
def exEnvPushFail : PipeEnv Unit :=
  { comparer := exComparer, facade := exFacade, noise := (), b64 := exB64,
    pushRes := fun _ => .ok false, ackRes := .ok true, nackRes := .ok true }

/-- Pipeline environment where generation fails. -/
def exEnvGenFail : PipeEnv Unit :=
  { comparer := exComparer, facade := exFacadeFail, noise := (), b64 := exB64,
    pushRes := fun _ => .ok true, ackRes := .ok true, nackRes := .ok true }

/-- Inbound message of scenario A: valid, resolves to the cat class. -/
def exMsgA : Message InBody := { body := { user_id := some "u1", message := some "a cat sleeping" }, delivery_tag := 7 }

/-- Inbound message of scenario B: valid, resolves to no class. -/
def exMsgB : Message InBody := { body := { user_id := some "u2", message := some "quantum mechanics" }, delivery_tag := 8 }

/-- Invalid inbound message: empty user id. -/
def exMsgBad : Message InBody := { body := { user_id := some "", message := some "hi" }, delivery_tag := 9 }

/-! ## Theorems -/

/-- Once the loop of `get_relevant_class` holds a candidate it never returns
to the absent result. -/
theorem grc_go_some_ne_none (comparer : String → String → SimRes) (message : String) :
    ∀ (l : List String) (v : ℚ) (a : String),
      get_relevant_class_go comparer message l v (some a) ≠ none := by
  intro l
  induction l with
  | nil => intro v a h; simp [get_relevant_class_go] at h
  | cons cl rest ih =>
    intro v a h
    rw [get_relevant_class_go] at h
    by_cases hc : (comparer cl message).is_similar = true ∧ (comparer cl message).metric < v
    · rw [if_pos hc] at h
      exact ih _ _ h
    · rw [if_neg hc] at h
      exact ih _ _ h

/-- The loop of `get_relevant_class` returns the absent result exactly when
its accumulator was absent and no class of the remaining list is eligible
with a metric below the running best. -/
theorem grc_go_eq_none (comparer : String → String → SimRes) (message : String) :
    ∀ (l : List String) (v : ℚ) (acc : Option String),
      (get_relevant_class_go comparer message l v acc = none ↔
        (acc = none ∧ ∀ cl ∈ l,
          ¬((comparer cl message).is_similar = true ∧ (comparer cl message).metric < v))) := by
  intro l
  induction l with
  | nil => intro v acc; simp [get_relevant_class_go]
  | cons cl rest ih =>
    intro v acc
    rw [get_relevant_class_go]
    by_cases hc : (comparer cl message).is_similar = true ∧ (comparer cl message).metric < v
    · rw [if_pos hc]
      constructor
      · intro h
        exact absurd h (grc_go_some_ne_none comparer message rest _ cl)
      · rintro ⟨-, hall⟩
        exact absurd hc (hall cl (List.mem_cons_self cl rest))
    · rw [if_neg hc]
      rw [ih v acc]
      constructor
      · rintro ⟨hacc, hall⟩
        refine ⟨hacc, ?_⟩
        intro b hb
        rcases List.mem_cons.mp hb with rfl | hb'
        · exact hc
        · exact hall b hb'
      · rintro ⟨hacc, hall⟩
        exact ⟨hacc, fun b hb => hall b (List.mem_cons_of_mem cl hb)⟩

/-- Minimality invariant of the loop of `get_relevant_class`: whenever the
accumulator holds a class whose metric equals the running best and which is
eligible, a returned class is eligible, its metric is at most the running
best, it either is the accumulator or lies in the remaining list with a
strictly smaller metric, and its metric is at most the metric of every
eligible class of the remaining list. -/
theorem grc_go_min (comparer : String → String → SimRes) (message : String) :
    ∀ (l : List String) (v : ℚ) (acc : Option String) (c : String),
      (∀ a, acc = some a →
        (comparer a message).metric = v ∧ (comparer a message).is_similar = true) →
      get_relevant_class_go comparer message l v acc = some c →
      (comparer c message).is_similar = true ∧ (comparer c message).metric ≤ v ∧
        (acc = some c ∨ (c ∈ l ∧ (comparer c message).metric < v)) ∧
        (∀ b ∈ l, (comparer b message).is_similar = true →
          (comparer c message).metric ≤ (comparer b message).metric) := by
  intro l
  induction l with
  | nil =>
    intro v acc c hacc h
    rw [get_relevant_class_go] at h
    obtain ⟨hm, hs⟩ := hacc c h
    exact ⟨hs, le_of_eq hm, Or.inl h, by simp⟩
  | cons cl rest ih =>
    intro v acc c hacc h
    rw [get_relevant_class_go] at h
    by_cases hc : (comparer cl message).is_similar = true ∧ (comparer cl message).metric < v
    · rw [if_pos hc] at h
      have hacc' : ∀ a, (some cl : Option String) = some a →
          (comparer a message).metric = (comparer cl message).metric ∧
            (comparer a message).is_similar = true := by
        intro a ha
        injection ha with ha
        subst ha
        exact ⟨rfl, hc.1⟩
      obtain ⟨hs, hle, hor, hall⟩ := ih (comparer cl message).metric (some cl) c hacc' h
      refine ⟨hs, le_trans hle (le_of_lt hc.2), ?_, ?_⟩
      · rcases hor with h1 | ⟨hin, hlt⟩
        · injection h1 with h1
          subst h1
          exact Or.inr ⟨List.mem_cons_self _ _, lt_of_le_of_lt hle hc.2⟩
        · exact Or.inr ⟨List.mem_cons_of_mem cl hin, lt_trans hlt hc.2⟩
      · intro b hb hsb
        rcases List.mem_cons.mp hb with rfl | hb'
        · exact hle
        · exact hall b hb' hsb
    · rw [if_neg hc] at h
      obtain ⟨hs, hle, hor, hall⟩ := ih v acc c hacc h
      refine ⟨hs, hle, ?_, ?_⟩
      · rcases hor with h1 | ⟨hin, hlt⟩
        · exact Or.inl h1
        · exact Or.inr ⟨List.mem_cons_of_mem cl hin, hlt⟩
      · intro b hb hsb
        rcases List.mem_cons.mp hb with rfl | hb'
        · have hnlt : ¬(comparer b message).metric < v := fun hlt2 => hc ⟨hsb, hlt2⟩
          exact le_trans hle (le_of_not_lt hnlt)
        · exact hall b hb' hsb

/-- Earliest-wins invariant of the loop of `get_relevant_class`: a returned
class that is not the accumulator splits the remaining list so that every
eligible class strictly before it has a strictly larger metric. -/
theorem grc_go_earliest (comparer : String → String → SimRes) (message : String) :
    ∀ (l : List String) (v : ℚ) (acc : Option String) (c : String),
      (∀ a, acc = some a →
        (comparer a message).metric = v ∧ (comparer a message).is_similar = true) →
      get_relevant_class_go comparer message l v acc = some c →
      acc = some c ∨ ∃ l₁ l₂, l = l₁ ++ c :: l₂ ∧ (comparer c message).metric < v ∧
        (∀ b ∈ l₁, (comparer b message).is_similar = true →
          (comparer c message).metric < (comparer b message).metric) := by
  intro l
  induction l with
  | nil =>
    intro v acc c _ h
    rw [get_relevant_class_go] at h
    exact Or.inl h
  | cons cl rest ih =>
    intro v acc c hacc h
    rw [get_relevant_class_go] at h
    by_cases hc : (comparer cl message).is_similar = true ∧ (comparer cl message).metric < v
    · rw [if_pos hc] at h
      have hacc' : ∀ a, (some cl : Option String) = some a →
          (comparer a message).metric = (comparer cl message).metric ∧
            (comparer a message).is_similar = true := by
        intro a ha
        injection ha with ha
        subst ha
        exact ⟨rfl, hc.1⟩
      rcases ih (comparer cl message).metric (some cl) c hacc' h with h1 | ⟨l₁, l₂, hsplit, hlt, hbefore⟩
      · injection h1 with h1
        subst h1
        exact Or.inr ⟨[], rest, rfl, hc.2, by simp⟩
      · refine Or.inr ⟨cl :: l₁, l₂, by rw [hsplit]; rfl, lt_trans hlt hc.2, ?_⟩
        intro b hb hsb
        rcases List.mem_cons.mp hb with rfl | hb'
        · exact hlt
        · exact hbefore b hb' hsb
    · rw [if_neg hc] at h
      rcases ih v acc c hacc h with h1 | ⟨l₁, l₂, hsplit, hlt, hbefore⟩
      · exact Or.inl h1
      · refine Or.inr ⟨cl :: l₁, l₂, by rw [hsplit]; rfl, hlt, ?_⟩
        intro b hb hsb
        rcases List.mem_cons.mp hb with rfl | hb'
        · have hge : ¬(comparer b message).metric < v := fun hlt2 => hc ⟨hsb, hlt2⟩
          exact lt_of_lt_of_le hlt (le_of_not_lt hge)
        · exact hbefore b hb' hsb

/-- C3: for every ordered class list, input text and similarity capability,
`get_relevant_class` returns a class only if it is in the list, eligible
(`is_similar` reported true), has metric strictly below the sentinel 1.0,
has the lowest metric among all eligible classes, and strictly beats every
eligible class occurring before it (earlier wins on ties); it returns
absent exactly when no eligible class has metric below 1.0. -/
theorem C3_classifier_nearest (classes : List String) (message : String)
    (comparer : String → String → SimRes) :
    (∀ c, get_relevant_class classes message comparer = some c →
      c ∈ classes ∧ (comparer c message).is_similar = true ∧
        (comparer c message).metric < 1 ∧
        (∀ b ∈ classes, (comparer b message).is_similar = true →
          (comparer c message).metric ≤ (comparer b message).metric) ∧
        (∃ l₁ l₂, classes = l₁ ++ c :: l₂ ∧
          ∀ b ∈ l₁, (comparer b message).is_similar = true →
            (comparer c message).metric < (comparer b message).metric)) ∧
    (get_relevant_class classes message comparer = none ↔
      ∀ b ∈ classes, (comparer b message).is_similar = true →
        1 ≤ (comparer b message).metric) := by
  have hacc : ∀ a, (none : Option String) = some a →
      (comparer a message).metric = 1 ∧ (comparer a message).is_similar = true := by
    intro a ha
    exact Option.noConfusion ha
  constructor
  · intro c h
    obtain ⟨hs, _, hor, hall⟩ := grc_go_min comparer message classes 1 none c hacc h
    rcases hor with h1 | ⟨hin, hlt⟩
    · exact Option.noConfusion h1
    rcases grc_go_earliest comparer message classes 1 none c hacc h with h1 | ⟨l₁, l₂, hsplit, -, hbefore⟩
    · exact Option.noConfusion h1
    exact ⟨hin, hs, hlt, hall, l₁, l₂, hsplit, hbefore⟩
  · rw [show get_relevant_class classes message comparer =
        get_relevant_class_go comparer message classes 1 none from rfl]
    rw [grc_go_eq_none comparer message classes 1 none]
    constructor
    · rintro ⟨-, hall⟩ b hb hsb
      exact le_of_not_lt fun hlt => hall b hb ⟨hsb, hlt⟩
    · intro hall
      exact ⟨rfl, fun b hb hpair => absurd hpair.2 (not_lt.mpr (hall b hb hpair.1))⟩

/-- Witness for C3 at a concrete comparer and class list. -/
theorem C3_witness :
    "cat" ∈ ["cat", "butterfly"] ∧
      (exComparer "cat" "a cat sleeping").is_similar = true ∧
      (exComparer "cat" "a cat sleeping").metric < 1 ∧
      (∀ b ∈ ["cat", "butterfly"], (exComparer b "a cat sleeping").is_similar = true →
        (exComparer "cat" "a cat sleeping").metric ≤ (exComparer b "a cat sleeping").metric) ∧
      (∃ l₁ l₂, ["cat", "butterfly"] = l₁ ++ "cat" :: l₂ ∧
        ∀ b ∈ l₁, (exComparer b "a cat sleeping").is_similar = true →
          (exComparer "cat" "a cat sleeping").metric < (exComparer b "a cat sleeping").metric) :=
  (C3_classifier_nearest ["cat", "butterfly"] "a cat sleeping" exComparer).1 "cat" (by decide)

/-- C8: validation succeeds exactly when both the user_id field and the
message field are present and non-empty; in particular an empty user_id
with a non-empty message is invalid, and non-empty values for both fields
are valid.  `validate_body` is a total function of the body, so it never
raises. -/
theorem C8_validate_body_iff (body : InBody) :
    ((validate_body body).error = false ↔
      ((∃ u, body.user_id = some u ∧ u ≠ "") ∧ (∃ t, body.message = some t ∧ t ≠ ""))) ∧
    (validate_body { user_id := some "", message := some "hi" }).error = true ∧
    (validate_body { user_id := some "u1", message := some "hi" }).error = false := by
  refine ⟨?_, by decide, by decide⟩
  rcases body with ⟨u, m⟩
  cases u with
  | none => simp [validate_body, pyTruthy]
  | some s =>
    cases m with
    | none =>
      by_cases hs : s = "" <;>
        simp [validate_body, pyTruthy, hs]
    | some t =>
      by_cases hs : s = "" <;> by_cases ht : t = "" <;>
        simp [validate_body, pyTruthy, hs, ht]

/-- Witness for C8 at the two concrete bodies of property P6. -/
theorem C8_validate_body_witness :
    (validate_body { user_id := some "u1", message := some "hi" }).error = false :=
  (C8_validate_body_iff { user_id := some "u1", message := some "hi" }).2.2

/-- Membership in the actions of `pushAndAck`: besides the actions already
accumulated, exactly the push invocation is recorded, plus the ack
invocation exactly when the push returned success. -/
theorem pushAndAck_mem {ι : Type} (env : PipeEnv ι) (msg : Message InBody)
    (payload : ResultPayload) (acts : List PAct) (a : PAct) :
    a ∈ (pushAndAck env msg payload acts).1 ↔
      (a ∈ acts ∨ a = .pushed "message_uploader" payload ∨
        (a = .acked msg.delivery_tag ∧ env.pushRes payload = .ok true)) := by
  unfold pushAndAck
  rcases h : env.pushRes payload with e | b
  · simp [h]
  · cases b
    · simp [h]
    · rcases h2 : env.ackRes with e2 | b2 <;> simp [h, h2, or_assoc]

/-- The exception escaping `pushAndAck`, by cases on the push and ack
outcomes. -/
theorem pushAndAck_snd {ι : Type} (env : PipeEnv ι) (msg : Message InBody)
    (payload : ResultPayload) (acts : List PAct) :
    (pushAndAck env msg payload acts).2 =
      (match env.pushRes payload with
        | .error e => some e
        | .ok false => some (.runtimeError pushFailMsg)
        | .ok true => match env.ackRes with
          | .error e => some e
          | .ok _ => none) := by
  unfold pushAndAck
  rcases h : env.pushRes payload with e | b
  · simp [h]
  · cases b
    · simp [h]
    · rcases h2 : env.ackRes with e2 | b2 <;> simp [h, h2]

/-- Behaviour of the try block on a message failing validation. -/
theorem process_try_invalid {ι : Type} (env : PipeEnv ι) (msg : Message InBody)
    (hv : (validate_body msg.body).error = true) :
    process_try env msg = ([], some (.valueError (validate_body msg.body).messages)) := by
  unfold process_try
  simp [hv]

/-- Behaviour of the try block on a valid message resolving to no class. -/
theorem process_try_noclass {ι : Type} (env : PipeEnv ι) (msg : Message InBody)
    (hv : (validate_body msg.body).error = false)
    (hcl : get_relevant_class ["cat", "butterfly"] (msg.body.message.getD "") env.comparer = none) :
    process_try env msg =
      pushAndAck env msg ⟨msg.body.user_id, none, none, true, "Unknown received class"⟩ [] := by
  unfold process_try
  simp [hv, hcl]

/-- Behaviour of the try block on a valid message whose resolved class fails
to generate. -/
theorem process_try_genfail {ι : Type} (env : PipeEnv ι) (msg : Message InBody)
    (cl : String) (e : PyExc)
    (hv : (validate_body msg.body).error = false)
    (hcl : get_relevant_class ["cat", "butterfly"] (msg.body.message.getD "") env.comparer = some cl)
    (hgen : env.facade.generate_by_class cl env.noise = .error e) :
    process_try env msg = ([.genCalled cl noiseShape], some e) := by
  unfold process_try
  simp [hv, hcl, hgen]

/-- Behaviour of the try block on a valid message whose resolved class
generates successfully. -/
theorem process_try_genok {ι : Type} (env : PipeEnv ι) (msg : Message InBody)
    (cl : String) (img : GenImage)
    (hv : (validate_body msg.body).error = false)
    (hcl : get_relevant_class ["cat", "butterfly"] (msg.body.message.getD "") env.comparer = some cl)
    (hgen : env.facade.generate_by_class cl env.noise = .ok img) :
    process_try env msg =
      pushAndAck env msg
        ⟨msg.body.user_id, some (env.b64 img.bytes), some img.shape, false, "ok"⟩
        [.genCalled cl noiseShape] := by
  unfold process_try
  simp [hv, hcl, hgen]

/-- The per-message handler is transparent when no exception escapes the try
block. -/
theorem process_message_of_none {ι : Type} (env : PipeEnv ι) (msg : Message InBody)
    (acts : List PAct) (h : process_try env msg = (acts, none)) :
    process_message env msg = (acts, none) := by
  unfold process_message
  rw [h]

/-- The per-message handler nacks without requeue when an `Exception`-class
error escapes the try block; the handler swallows it unless the nack call
itself raises. -/
theorem process_message_of_exc {ι : Type} (env : PipeEnv ι) (msg : Message InBody)
    (acts : List PAct) (e : PyExc) (h : process_try env msg = (acts, some e))
    (he : e.isExceptionCls = true) :
    process_message env msg =
      (acts ++ [.nacked msg.delivery_tag false],
        match env.nackRes with
        | .ok _ => none
        | .error e₂ => some e₂) := by
  unfold process_message
  rw [h]
  simp [he]
  rcases h2 : env.nackRes with e2 | b2 <;> simp [h2]

/-- The per-message handler is transparent when a non-`Exception`-class
error (such as `KeyboardInterrupt`) escapes the try block: the error
propagates without a nack. -/
theorem process_message_of_nonexc {ι : Type} (env : PipeEnv ι) (msg : Message InBody)
    (acts : List PAct) (e : PyExc) (h : process_try env msg = (acts, some e))
    (he : e.isExceptionCls = false) :
    process_message env msg = (acts, some e) := by
  unfold process_message
  rw [h]
  simp [he]

/-- Every action recorded by the try block is recorded by the full
per-message handler. -/
theorem mem_process_message_of_try {ι : Type} (env : PipeEnv ι) (msg : Message InBody)
    (a : PAct) (h : a ∈ (process_try env msg).1) : a ∈ (process_message env msg).1 := by
  rcases ht : process_try env msg with ⟨acts, oe⟩
  have h' : a ∈ acts := by rw [ht] at h; exact h
  cases oe with
  | none =>
    rw [process_message_of_none env msg acts ht]
    exact h'
  | some e =>
    by_cases he : e.isExceptionCls = true
    · rw [process_message_of_exc env msg acts e ht he]
      exact List.mem_append.mpr (Or.inl h')
    · rw [process_message_of_nonexc env msg acts e ht (by simpa using he)]
      exact h'

/-- Every action recorded by the per-message handler was recorded by the try
block, except for the handler's own nack call. -/
theorem mem_process_message {ι : Type} (env : PipeEnv ι) (msg : Message InBody)
    (a : PAct) (h : a ∈ (process_message env msg).1) :
    a ∈ (process_try env msg).1 ∨ a = .nacked msg.delivery_tag false := by
  rcases ht : process_try env msg with ⟨acts, oe⟩
  cases oe with
  | none =>
    rw [process_message_of_none env msg acts ht] at h
    exact Or.inl h
  | some e =>
    by_cases he : e.isExceptionCls = true
    · rw [process_message_of_exc env msg acts e ht he] at h
      have hmem : a ∈ acts ++ [PAct.nacked msg.delivery_tag false] := h
      rcases List.mem_append.mp hmem with h1 | h2
      · exact Or.inl h1
      · exact Or.inr (by simpa using h2)
    · rw [process_message_of_nonexc env msg acts e ht (by simpa using he)] at h
      exact Or.inl h

/-- C5: every ResultPayload the pipeline builds and pushes satisfies the
artifact invariant: with `error = true` both artifact fields are null, and
with `error = false` both are populated. -/
theorem C5_payload_invariant {ι : Type} (env : PipeEnv ι) (msg : Message InBody)
    (q : String) (p : ResultPayload)
    (h : PAct.pushed q p ∈ (process_message env msg).1) :
    (p.error = true → p.image_b64 = none ∧ p.shape = none) ∧
      (p.error = false → p.image_b64.isSome = true ∧ p.shape.isSome = true) := by
  rcases mem_process_message env msg _ h with h' | hbad
  swap
  · exact absurd hbad (by simp)
  by_cases hv : (validate_body msg.body).error = true
  · rw [process_try_invalid env msg hv] at h'
    simp at h'
  rw [Bool.not_eq_true] at hv
  rcases hcl : get_relevant_class ["cat", "butterfly"] (msg.body.message.getD "") env.comparer
    with _ | cl
  · rw [process_try_noclass env msg hv hcl] at h'
    rw [pushAndAck_mem] at h'
    rcases h' with h0 | hp | ⟨ha, -⟩
    · simp at h0
    · simp only [PAct.pushed.injEq] at hp
      obtain ⟨-, rfl⟩ := hp
      simp
    · exact absurd ha (by simp)
  · rcases hgen : env.facade.generate_by_class cl env.noise with e | img
    · rw [process_try_genfail env msg cl e hv hcl hgen] at h'
      simp at h'
    · rw [process_try_genok env msg cl img hv hcl hgen] at h'
      rw [pushAndAck_mem] at h'
      rcases h' with h0 | hp | ⟨ha, -⟩
      · simp at h0
      · simp only [PAct.pushed.injEq] at hp
        obtain ⟨-, rfl⟩ := hp
        simp
      · exact absurd ha (by simp)

/-- Witness for C5: the error payload pushed for an unclassifiable message
satisfies the invariant. -/
theorem C5_payload_invariant_witness :
    (((⟨some "u2", none, none, true, "Unknown received class"⟩ : ResultPayload).error = true →
        (⟨some "u2", none, none, true, "Unknown received class"⟩ : ResultPayload).image_b64 = none ∧
        (⟨some "u2", none, none, true, "Unknown received class"⟩ : ResultPayload).shape = none) ∧
      ((⟨some "u2", none, none, true, "Unknown received class"⟩ : ResultPayload).error = false →
        (⟨some "u2", none, none, true, "Unknown received class"⟩ : ResultPayload).image_b64.isSome = true ∧
        (⟨some "u2", none, none, true, "Unknown received class"⟩ : ResultPayload).shape.isSome = true)) :=
  C5_payload_invariant exEnvOk exMsgB "message_uploader"
    ⟨some "u2", none, none, true, "Unknown received class"⟩ (by
      apply mem_process_message_of_try
      rw [process_try_noclass exEnvOk exMsgB (by decide) (by decide)]
      rw [pushAndAck_mem]
      exact Or.inr (Or.inl rfl))

/-- C6: for a valid inbound message resolving to a class that generates
successfully, the pipeline invokes generation with that class and the
fixed-shape synthetic input, pushes the ok payload carrying the message's
user_id, the non-null base64 artifact and its shape, and invokes ack on the
inbound message exactly when the push succeeds. -/
theorem C6_success_path {ι : Type} (env : PipeEnv ι) (msg : Message InBody)
    (cl : String) (img : GenImage)
    (hv : (validate_body msg.body).error = false)
    (hcl : get_relevant_class ["cat", "butterfly"] (msg.body.message.getD "") env.comparer = some cl)
    (hgen : env.facade.generate_by_class cl env.noise = .ok img) :
    PAct.genCalled cl noiseShape ∈ (process_message env msg).1 ∧
    PAct.pushed "message_uploader"
        ⟨msg.body.user_id, some (env.b64 img.bytes), some img.shape, false, "ok"⟩
      ∈ (process_message env msg).1 ∧
    (PAct.acked msg.delivery_tag ∈ (process_message env msg).1 ↔
      env.pushRes ⟨msg.body.user_id, some (env.b64 img.bytes), some img.shape, false, "ok"⟩
        = .ok true) := by
  have ht := process_try_genok env msg cl img hv hcl hgen
  refine ⟨?_, ?_, ?_, ?_⟩
  case _ =>
    apply mem_process_message_of_try
    rw [ht, pushAndAck_mem]
    exact Or.inl (List.mem_singleton.mpr rfl)
  case _ =>
    apply mem_process_message_of_try
    rw [ht, pushAndAck_mem]
    exact Or.inr (Or.inl rfl)
  case _ =>
    intro hin
    rcases mem_process_message env msg _ hin with hin' | hbad
    · rw [ht, pushAndAck_mem] at hin'
      rcases hin' with h0 | hp | ⟨-, hps⟩
      · simp at h0
      · exact absurd hp (by simp)
      · exact hps
    · exact absurd hbad (by simp)
  case _ =>
    intro hps
    apply mem_process_message_of_try
    rw [ht, pushAndAck_mem]
    exact Or.inr (Or.inr ⟨rfl, hps⟩)

/-- Witness for C6 at scenario A: the cat class is generated, the ok
payload is pushed, and the message is acked. -/
theorem C6_success_path_witness :
    PAct.genCalled "cat" noiseShape ∈ (process_message exEnvOk exMsgA).1 ∧
    PAct.pushed "message_uploader"
        ⟨exMsgA.body.user_id, some (exEnvOk.b64 [0, 1, 2]), some [64, 64, 3], false, "ok"⟩
      ∈ (process_message exEnvOk exMsgA).1 ∧
    (PAct.acked exMsgA.delivery_tag ∈ (process_message exEnvOk exMsgA).1 ↔
      exEnvOk.pushRes
          ⟨exMsgA.body.user_id, some (exEnvOk.b64 [0, 1, 2]), some [64, 64, 3], false, "ok"⟩
        = .ok true) :=
  C6_success_path exEnvOk exMsgA "cat" ⟨[0, 1, 2], [64, 64, 3]⟩ (by decide) (by decide) rfl

/-- C7: for a valid inbound message resolving to no class, the pipeline
pushes the error payload with null artifact fields and the "Unknown
received class" message, and invokes ack on the inbound message exactly
when the push succeeds. -/
theorem C7_unknown_class_path {ι : Type} (env : PipeEnv ι) (msg : Message InBody)
    (hv : (validate_body msg.body).error = false)
    (hcl : get_relevant_class ["cat", "butterfly"] (msg.body.message.getD "") env.comparer = none) :
    PAct.pushed "message_uploader"
        ⟨msg.body.user_id, none, none, true, "Unknown received class"⟩
      ∈ (process_message env msg).1 ∧
    (PAct.acked msg.delivery_tag ∈ (process_message env msg).1 ↔
      env.pushRes ⟨msg.body.user_id, none, none, true, "Unknown received class"⟩ = .ok true) := by
  have ht := process_try_noclass env msg hv hcl
  refine ⟨?_, ?_, ?_⟩
  case _ =>
    apply mem_process_message_of_try
    rw [ht, pushAndAck_mem]
    exact Or.inr (Or.inl rfl)
  case _ =>
    intro hin
    rcases mem_process_message env msg _ hin with hin' | hbad
    · rw [ht, pushAndAck_mem] at hin'
      rcases hin' with h0 | hp | ⟨-, hps⟩
      · simp at h0
      · exact absurd hp (by simp)
      · exact hps
    · exact absurd hbad (by simp)
  case _ =>
    intro hps
    apply mem_process_message_of_try
    rw [ht, pushAndAck_mem]
    exact Or.inr (Or.inr ⟨rfl, hps⟩)

/-- Witness for C7 at scenario B. -/
theorem C7_unknown_class_path_witness :
    PAct.pushed "message_uploader"
        ⟨exMsgB.body.user_id, none, none, true, "Unknown received class"⟩
      ∈ (process_message exEnvOk exMsgB).1 ∧
    (PAct.acked exMsgB.delivery_tag ∈ (process_message exEnvOk exMsgB).1 ↔
      exEnvOk.pushRes ⟨exMsgB.body.user_id, none, none, true, "Unknown received class"⟩
        = .ok true) :=
  C7_unknown_class_path exEnvOk exMsgB (by decide) (by decide)

/-- When the try block ends in `pushAndAck` and the push does not succeed,
the escaping `Exception`-class error makes the handler nack without
requeue, no ack is recorded, and the error is swallowed when the nack
call succeeds. -/
theorem pushfail_handler {ι : Type} (env : PipeEnv ι) (msg : Message InBody)
    (P : ResultPayload) (acts : List PAct) (e' : PyExc)
    (hT : process_try env msg = pushAndAck env msg P acts)
    (hsnd : (pushAndAck env msg P acts).2 = some e')
    (he : e'.isExceptionCls = true)
    (hnotok : env.pushRes P ≠ .ok true)
    (hacked_acts : ∀ t, PAct.acked t ∉ acts) :
    PAct.nacked msg.delivery_tag false ∈ (process_message env msg).1 ∧
      (∀ t, PAct.acked t ∉ (process_message env msg).1) ∧
      (∀ b, env.nackRes = .ok b → (process_message env msg).2 = none) := by
  have hsplit : process_try env msg = ((pushAndAck env msg P acts).1, some e') := by
    rw [hT, ← hsnd]
  have pm := process_message_of_exc env msg _ e' hsplit he
  refine ⟨?_, ?_, ?_⟩
  · rw [pm]
    simp
  · intro t hin
    rw [pm] at hin
    have hin' : PAct.acked t ∈ (pushAndAck env msg P acts).1 ++
        [PAct.nacked msg.delivery_tag false] := hin
    rcases List.mem_append.mp hin' with h1 | h2
    · rw [pushAndAck_mem] at h1
      rcases h1 with h0 | hp | ⟨-, hps⟩
      · exact hacked_acts t h0
      · simp at hp
      · exact hnotok hps
    · simp at h2
  · intro b hb
    rw [pm]
    simp [hb]

/-- C2: any `Exception`-class failure while handling a popped message --
validation failure, generation failure, an outbound push that reports
failure, or an outbound push that raises -- is caught at the per-message
boundary: the inbound message is nacked with requeue false, never acked,
and no outbound push at all occurs for a message failing validation;
when the nack call itself succeeds, nothing escapes the boundary. -/
theorem C2_per_message_error_handling {ι : Type} (env : PipeEnv ι) (msg : Message InBody) :
    ((validate_body msg.body).error = true →
      PAct.nacked msg.delivery_tag false ∈ (process_message env msg).1 ∧
        (∀ t, PAct.acked t ∉ (process_message env msg).1) ∧
        (∀ q p, PAct.pushed q p ∉ (process_message env msg).1) ∧
        (∀ b, env.nackRes = .ok b → (process_message env msg).2 = none)) ∧
    (∀ cl e, (validate_body msg.body).error = false →
      get_relevant_class ["cat", "butterfly"] (msg.body.message.getD "") env.comparer = some cl →
      env.facade.generate_by_class cl env.noise = .error e → e.isExceptionCls = true →
      PAct.nacked msg.delivery_tag false ∈ (process_message env msg).1 ∧
        (∀ t, PAct.acked t ∉ (process_message env msg).1) ∧
        (∀ q p, PAct.pushed q p ∉ (process_message env msg).1) ∧
        (∀ b, env.nackRes = .ok b → (process_message env msg).2 = none)) ∧
    ((validate_body msg.body).error = false →
      (∀ p, env.pushRes p = .ok false) →
      (get_relevant_class ["cat", "butterfly"] (msg.body.message.getD "") env.comparer = none ∨
        ∃ cl img,
          get_relevant_class ["cat", "butterfly"] (msg.body.message.getD "") env.comparer
              = some cl ∧
            env.facade.generate_by_class cl env.noise = .ok img) →
      PAct.nacked msg.delivery_tag false ∈ (process_message env msg).1 ∧
        (∀ t, PAct.acked t ∉ (process_message env msg).1) ∧
        (∀ b, env.nackRes = .ok b → (process_message env msg).2 = none)) ∧
    (∀ e, (validate_body msg.body).error = false →
      (∀ p, env.pushRes p = .error e) → e.isExceptionCls = true →
      (get_relevant_class ["cat", "butterfly"] (msg.body.message.getD "") env.comparer = none ∨
        ∃ cl img,
          get_relevant_class ["cat", "butterfly"] (msg.body.message.getD "") env.comparer
              = some cl ∧
            env.facade.generate_by_class cl env.noise = .ok img) →
      PAct.nacked msg.delivery_tag false ∈ (process_message env msg).1 ∧
        (∀ t, PAct.acked t ∉ (process_message env msg).1) ∧
        (∀ b, env.nackRes = .ok b → (process_message env msg).2 = none)) := by
  refine ⟨?_, ?_, ?_, ?_⟩
  · intro hv
    have pm := process_message_of_exc env msg [] _ (process_try_invalid env msg hv) rfl
    refine ⟨?_, ?_, ?_, ?_⟩
    · rw [pm]; simp
    · intro t; rw [pm]; simp
    · intro q p; rw [pm]; simp
    · intro b hb; rw [pm]; simp [hb]
  · intro cl e hv hcl hgen he
    have pm := process_message_of_exc env msg [PAct.genCalled cl noiseShape] e
      (process_try_genfail env msg cl e hv hcl hgen) he
    refine ⟨?_, ?_, ?_, ?_⟩
    · rw [pm]; simp
    · intro t; rw [pm]; simp
    · intro q p; rw [pm]; simp
    · intro b hb; rw [pm]; simp [hb]
  · intro hv hpf hreach
    rcases hreach with hcl | ⟨cl, img, hcl, hgen⟩
    · refine pushfail_handler env msg _ [] (.runtimeError pushFailMsg)
        (process_try_noclass env msg hv hcl) ?_ rfl ?_ ?_
      · rw [pushAndAck_snd]
        simp [hpf]
      · simp [hpf]
      · intro t
        simp
    · refine pushfail_handler env msg _ [PAct.genCalled cl noiseShape] (.runtimeError pushFailMsg)
        (process_try_genok env msg cl img hv hcl hgen) ?_ rfl ?_ ?_
      · rw [pushAndAck_snd]
        simp [hpf]
      · simp [hpf]
      · intro t
        simp
  · intro e hv hpe he hreach
    rcases hreach with hcl | ⟨cl, img, hcl, hgen⟩
    · refine pushfail_handler env msg _ [] e
        (process_try_noclass env msg hv hcl) ?_ he ?_ ?_
      · rw [pushAndAck_snd]
        simp [hpe]
      · simp [hpe]
      · intro t
        simp
    · refine pushfail_handler env msg _ [PAct.genCalled cl noiseShape] e
        (process_try_genok env msg cl img hv hcl hgen) ?_ he ?_ ?_
      · rw [pushAndAck_snd]
        simp [hpe]
      · simp [hpe]
      · intro t
        simp

/-- Witness for C2 at scenario C: a message with an empty user_id is nacked
without requeue, not acked, and never pushed. -/
theorem C2_per_message_error_handling_witness :
    PAct.nacked exMsgBad.delivery_tag false ∈ (process_message exEnvOk exMsgBad).1 ∧
      (∀ t, PAct.acked t ∉ (process_message exEnvOk exMsgBad).1) ∧
      (∀ q p, PAct.pushed q p ∉ (process_message exEnvOk exMsgBad).1) ∧
      (∀ b, exEnvOk.nackRes = .ok b → (process_message exEnvOk exMsgBad).2 = none) :=
  (C2_per_message_error_handling exEnvOk exMsgBad).1 (by decide)

/-- A class returned by `get_relevant_class` is one of the candidates. -/
theorem grc_mem (classes : List String) (message : String)
    (comparer : String → String → SimRes) (c : String)
    (h : get_relevant_class classes message comparer = some c) : c ∈ classes := by
  have hacc : ∀ a, (none : Option String) = some a →
      (comparer a message).metric = 1 ∧ (comparer a message).is_similar = true := by
    intro a ha
    exact Option.noConfusion ha
  obtain ⟨-, -, hor, -⟩ := grc_go_min comparer message classes 1 none c hacc h
  rcases hor with h1 | ⟨hin, -⟩
  · exact Option.noConfusion h1
  · exact hin

/-- C10: `generate_by_class` raises the Unknown class error exactly for
names other than cat and butterfly, and for those two names dispatches to
the corresponding concrete model; the pipeline only ever invokes generation
with a class returned by the classifier over the fixed list, so every
generation invocation recorded by the pipeline carries cat or butterfly
and the error branch is unreachable from the pipeline. -/
theorem C10_facade_dispatch :
    (∀ (ι : Type) (fm : FacadeModel ι) (cl : String) (x : ι),
      cl ≠ "cat" → cl ≠ "butterfly" →
      fm.generate_by_class cl x = .error .unknownClass) ∧
    (∀ (ι : Type) (fm : FacadeModel ι) (x : ι),
      FacadeModel.generate_by_class fm "cat" x = fm.cat_model x ∧
      FacadeModel.generate_by_class fm "butterfly" x = fm.butterfly_model x) ∧
    (∀ (classes : List String) (message : String) (comparer : String → String → SimRes)
        (c : String),
      get_relevant_class classes message comparer = some c → c ∈ classes) ∧
    (∀ (ι : Type) (env : PipeEnv ι) (msg : Message InBody) (cl : String) (sh : List Nat),
      PAct.genCalled cl sh ∈ (process_message env msg).1 →
        cl = "cat" ∨ cl = "butterfly") := by
  refine ⟨?_, ?_, ?_, ?_⟩
  · intro ι fm cl x h1 h2
    simp [FacadeModel.generate_by_class, h1, h2]
  · intro ι fm x
    constructor <;> simp [FacadeModel.generate_by_class]
  · intro classes message comparer c h
    exact grc_mem classes message comparer c h
  · intro ι env msg cl sh h
    rcases mem_process_message env msg _ h with h' | hbad
    swap
    · exact absurd hbad (by simp)
    by_cases hv : (validate_body msg.body).error = true
    · rw [process_try_invalid env msg hv] at h'
      simp at h'
    rw [Bool.not_eq_true] at hv
    rcases hcl : get_relevant_class ["cat", "butterfly"] (msg.body.message.getD "") env.comparer
      with _ | cl'
    · rw [process_try_noclass env msg hv hcl] at h'
      rw [pushAndAck_mem] at h'
      rcases h' with h0 | hp | ⟨ha, -⟩
      · simp at h0
      · exact absurd hp (by simp)
      · exact absurd ha (by simp)
    · have hmem : cl' ∈ ["cat", "butterfly"] :=
        grc_mem ["cat", "butterfly"] (msg.body.message.getD "") env.comparer cl' hcl
      rcases hgen : env.facade.generate_by_class cl' env.noise with e | img
      · rw [process_try_genfail env msg cl' e hv hcl hgen] at h'
        have : cl = cl' := by
          simp only [List.mem_singleton, PAct.genCalled.injEq] at h'
          exact h'.1
        subst this
        simpa using hmem
      · rw [process_try_genok env msg cl' img hv hcl hgen] at h'
        rw [pushAndAck_mem] at h'
        rcases h' with h0 | hp | ⟨ha, -⟩
        · have : cl = cl' := by
            simp only [List.mem_singleton, PAct.genCalled.injEq] at h0
            exact h0.1
          subst this
          simpa using hmem
        · exact absurd hp (by simp)
        · exact absurd ha (by simp)

/-- Witness for C10: a class name outside the fixed set hits the error
branch of the facade. -/
theorem C10_facade_dispatch_witness :
    exFacade.generate_by_class "dog" () = .error .unknownClass :=
  C10_facade_dispatch.1 Unit exFacade "dog" () (by decide) (by decide)


namespace RabbitMQQueue

set_option maxHeartbeats 3200000

/-- C1: the retry-once discipline of every broker-facing operation, from a
freshly connected instance and for every broker behaviour of the stated
shape.  For each of push, pop, ack, nack, empty and ping: a first attempt
failing with a connectivity-class error (with any liveness damage) is
followed, after recovery, by exactly one more attempt; when that second
attempt also fails with a connectivity-class error the operation returns
its failure value (false, absent, true-for-empty, error result for ping)
and leaves the instance marked for reinitialization; when the second
attempt succeeds the operation returns its success value after exactly two
attempts; a first attempt that succeeds is never retried; and
non-connectivity failures (serialization in push, undecodable body in pop,
other `Exception`-class failures in empty and ping) are never retried and
yield the failure value immediately without marking for
reinitialization. -/
theorem C1_retry_once {α β : Type} (o : Oracle α β) (d : α) (tag n : Nat) (raw : String)
    (b : β) (dc dh dc2 dh2 : Bool) :
    ((o.serialize d = none → o.publish 0 = .failB .amqpError dc dh →
      o.publish 1 = .failB .amqpError dc2 dh2 →
      o.connect 0 = none → o.reopen 0 = none → o.qdeclare 0 = .okB →
      (push o d initQM).1 = .ok false ∧ (push o d initQM).2.st.needsReinit = true ∧
        countK .publishK (push o d initQM).2.tr = 2) ∧
    (o.serialize d = none → o.publish 0 = .failB .amqpError dc dh →
      o.publish 1 = .okB →
      o.connect 0 = none → o.reopen 0 = none → o.qdeclare 0 = .okB →
      (push o d initQM).1 = .ok true ∧ countK .publishK (push o d initQM).2.tr = 2) ∧
    (o.serialize d = none → o.publish 0 = .okB →
      (push o d initQM).1 = .ok true ∧ countK .publishK (push o d initQM).2.tr = 1) ∧
    (o.serialize d = some .typeOrValueError →
      (push o d initQM).1 = .ok false ∧ (push o d initQM).2 = initQM)) ∧
    ((o.basicGet 0 = .failG .amqpError dc dh → o.basicGet 1 = .failG .amqpError dc2 dh2 →
      o.connect 0 = none → o.reopen 0 = none → o.qdeclare 0 = .okB →
      (pop o initQM).1 = .ok (none : Option (Message β)) ∧
        (pop o initQM).2.st.needsReinit = true ∧
        countK .getK (pop o initQM).2.tr = 2) ∧
    (o.basicGet 0 = .failG .amqpError dc dh → o.basicGet 1 = .msgG tag raw →
      o.deserialize raw = .ok b →
      o.connect 0 = none → o.reopen 0 = none → o.qdeclare 0 = .okB →
      (pop o initQM).1 = .ok (some ⟨b, tag⟩) ∧ countK .getK (pop o initQM).2.tr = 2) ∧
    (o.basicGet 0 = .emptyG →
      (pop o initQM).1 = .ok (none : Option (Message β)) ∧
        countK .getK (pop o initQM).2.tr = 1) ∧
    (o.basicGet 0 = .msgG tag raw → o.deserialize raw = .error .decodeError →
      (pop o initQM).1 = .ok (none : Option (Message β)) ∧
        countK .getK (pop o initQM).2.tr = 1 ∧
        (pop o initQM).2.st.needsReinit = false)) ∧
    ((o.basicAck 0 = .failB .amqpError dc dh → o.basicAck 1 = .failB .amqpError dc2 dh2 →
      o.connect 0 = none → o.reopen 0 = none → o.qdeclare 0 = .okB →
      (ack o initQM).1 = .ok false ∧ (ack o initQM).2.st.needsReinit = true ∧
        countK .ackK (ack o initQM).2.tr = 2) ∧
    (o.basicAck 0 = .failB .amqpError dc dh → o.basicAck 1 = .okB →
      o.connect 0 = none → o.reopen 0 = none → o.qdeclare 0 = .okB →
      (ack o initQM).1 = .ok true ∧ countK .ackK (ack o initQM).2.tr = 2) ∧
    (o.basicAck 0 = .okB →
      (ack o initQM).1 = .ok true ∧ countK .ackK (ack o initQM).2.tr = 1)) ∧
    ((o.basicNack 0 = .failB .amqpError dc dh → o.basicNack 1 = .failB .amqpError dc2 dh2 →
      o.connect 0 = none → o.reopen 0 = none → o.qdeclare 0 = .okB →
      (nack o initQM).1 = .ok false ∧ (nack o initQM).2.st.needsReinit = true ∧
        countK .nackK (nack o initQM).2.tr = 2) ∧
    (o.basicNack 0 = .failB .amqpError dc dh → o.basicNack 1 = .okB →
      o.connect 0 = none → o.reopen 0 = none → o.qdeclare 0 = .okB →
      (nack o initQM).1 = .ok true ∧ countK .nackK (nack o initQM).2.tr = 2) ∧
    (o.basicNack 0 = .okB →
      (nack o initQM).1 = .ok true ∧ countK .nackK (nack o initQM).2.tr = 1)) ∧
    ((o.passive 0 = .failP .amqpError dc dh → o.passive 1 = .failP .amqpError dc2 dh2 →
      o.connect 0 = none → o.reopen 0 = none → o.qdeclare 0 = .okB →
      (empty o initQM).1 = .ok true ∧ (empty o initQM).2.st.needsReinit = true ∧
        countK .passiveK (empty o initQM).2.tr = 2) ∧
    (o.passive 0 = .failP .amqpError dc dh → o.passive 1 = .countP n →
      o.connect 0 = none → o.reopen 0 = none → o.qdeclare 0 = .okB →
      (empty o initQM).1 = .ok (decide (n = 0)) ∧
        countK .passiveK (empty o initQM).2.tr = 2) ∧
    (o.passive 0 = .countP n →
      (empty o initQM).1 = .ok (decide (n = 0)) ∧
        countK .passiveK (empty o initQM).2.tr = 1) ∧
    (o.passive 0 = .failP .otherError dc dh →
      (empty o initQM).1 = .ok true ∧ countK .passiveK (empty o initQM).2.tr = 1 ∧
        (empty o initQM).2.st.needsReinit = false)) ∧
    ((o.passive 0 = .failP .amqpError dc dh → o.passive 1 = .failP .amqpError dc2 dh2 →
      o.connect 0 = none → o.reopen 0 = none → o.qdeclare 0 = .okB →
      (ping o initQM).1 =
          .ok ⟨true, "RabbitMQ ping failed after retry: " ++ excStr .amqpError⟩ ∧
        (ping o initQM).2.st.needsReinit = true ∧
        countK .passiveK (ping o initQM).2.tr = 2) ∧
    (o.passive 0 = .failP .amqpError dc dh → o.passive 1 = .countP n →
      o.connect 0 = none → o.reopen 0 = none → o.qdeclare 0 = .okB →
      (ping o initQM).1 = .ok ⟨false, "OK"⟩ ∧
        countK .passiveK (ping o initQM).2.tr = 2) ∧
    (o.passive 0 = .countP n →
      (ping o initQM).1 = .ok ⟨false, "OK"⟩ ∧
        countK .passiveK (ping o initQM).2.tr = 1) ∧
    (o.passive 0 = .failP .otherError dc dh →
      (ping o initQM).1 = .ok ⟨true, "RabbitMQ ping failed: " ++ excStr .otherError⟩ ∧
        countK .passiveK (ping o initQM).2.tr = 1 ∧
        (ping o initQM).2.st.needsReinit = false)) := by
  refine ⟨⟨?_, ?_, ?_, ?_⟩, ⟨?_, ?_, ?_, ?_⟩, ⟨?_, ?_, ?_⟩, ⟨?_, ?_, ?_⟩,
    ⟨?_, ?_, ?_, ?_⟩, ⟨?_, ?_, ?_, ?_⟩⟩ <;>
    intros <;> (try cases dc) <;> (try cases dh) <;>
    simp_all [push, push_internal, pop, pop_internal, ack, ack_internal,
      nack, nack_internal, empty, empty_internal, ping, ping_attempt,
      ensure_channel, connectPrim, reopenPrim, qdeclarePrim,
      record, setReinit, countK, QState.applyDrop, initQM, readyState,
      PyExc.isConnTuple, PyExc.isAMQP, PyExc.isTypeOrValue, PyExc.isDecodeCls,
      PyExc.isExceptionCls]

end RabbitMQQueue

namespace RabbitMQQueue

/-- Witness for C1: the double-failure push scenario at a concrete oracle. -/
theorem C1_retry_once_witness :
    (push oAllFail () initQM).1 = .ok false ∧
      (push oAllFail () initQM).2.st.needsReinit = true ∧
      countK .publishK (push oAllFail () initQM).2.tr = 2 :=
  ((C1_retry_once oAllFail () 0 0 "" () false true false true).1).1 rfl rfl rfl rfl rfl rfl

/-- C9: when the broker hands over a delivery whose body fails to decode,
`pop` returns the absent result -- indistinguishable from an empty queue --
without issuing any ack or nack for the fetched delivery, without retrying
the fetch, and without marking the instance for reinitialization. -/
theorem C9_pop_undecodable_body {α β : Type} (o : Oracle α β) (tag : Nat) (raw : String)
    (hget : o.basicGet 0 = .msgG tag raw)
    (hdec : o.deserialize raw = .error .decodeError) :
    (pop o initQM).1 = .ok (none : Option (Message β)) ∧
      countK .ackK (pop o initQM).2.tr = 0 ∧
      countK .nackK (pop o initQM).2.tr = 0 ∧
      countK .getK (pop o initQM).2.tr = 1 ∧
      (pop o initQM).2.st = readyState := by
  simp [pop, pop_internal, ensure_channel, record, countK, initQM, readyState, hget, hdec,
    PyExc.isConnTuple, PyExc.isDecodeCls]

/-- Witness for C9 at a concrete oracle delivering an undecodable body. -/
theorem C9_pop_undecodable_body_witness :
    (pop oDecodeFail initQM).1 = .ok (none : Option (Message Unit)) ∧
      countK .ackK (pop oDecodeFail initQM).2.tr = 0 ∧
      countK .nackK (pop oDecodeFail initQM).2.tr = 0 ∧
      countK .getK (pop oDecodeFail initQM).2.tr = 1 ∧
      (pop oDecodeFail initQM).2.st = readyState :=
  C9_pop_undecodable_body oDecodeFail 5 "not-json" rfl rfl

/-- Liveness damage never breaks the reachable-state invariant. -/
theorem inv_applyDrop (s : QState) (dc dh : Bool) (h : s.inv) : (s.applyDrop dc dh).inv := by
  obtain ⟨h1, h2⟩ := h
  refine ⟨?_, h2⟩
  intro hch
  apply h1
  simp only [QState.applyDrop, Bool.and_eq_true] at hch
  exact hch.1

/-- Marking for reinitialization never breaks the reachable-state
invariant, and it leaves the trace unchanged. -/
theorem inv_setReinit (m : QM) (h : m.st.inv) : (setReinit m).st.inv := h

/-- Counting events of one kind distributes over trace concatenation. -/
theorem countK_append (k : CallKind) (l1 l2 : List QEvent) :
    countK k (l1 ++ l2) = countK k l1 + countK k l2 := by
  induction l1 with
  | nil => simp [countK]
  | cons ev rest ih => simp [countK, ih, Nat.add_assoc]

/-- Appending a single event preserves trace well-formedness when the event
is either a recovery call or was issued in a fully connected state. -/
theorem traceOK_append (tr : List QEvent) (ev : QEvent) (h : TraceOK tr)
    (hev : ev.isOpCall → ev.stAt.ready) : TraceOK (tr ++ [ev]) := by
  intro e he hop
  rcases List.mem_append.mp he with h1 | h2
  · exact h e h1 hop
  · have : e = ev := by simpa using h2
    subst this
    exact hev hop

/-- Appending recovery-call events preserves trace well-formedness. -/
theorem traceOK_append_rec (tr : List QEvent) (evs : List QEvent) (h : TraceOK tr)
    (hevs : ∀ ev ∈ evs, ¬ev.isOpCall) : TraceOK (tr ++ evs) := by
  intro e he hop
  rcases List.mem_append.mp he with h1 | h2
  · exact h e h1 hop
  · exact absurd hop (hevs e h2)

end RabbitMQQueue

namespace RabbitMQQueue

/-- Value of `_ensure_channel` in the reconnect branch when both the
reconnect and the re-declare succeed. -/
theorem ensure_eq_reconnect_ok {α β : Type} (o : Oracle α β) (m : QM)
    (h1 : m.st.connOpen = false)
    (hc : o.connect (countK .connectK m.tr) = none)
    (hq : o.qdeclare (countK .qdeclareK m.tr) = .okB) :
    ensure_channel o m =
      (.ok (), ⟨⟨true, true, true, true, false⟩,
        m.tr ++ [⟨.connectK, true, m.st⟩,
                 ⟨.qdeclareK, true, ⟨true, true, true, m.st.queueDeclared, false⟩⟩]⟩) := by
  unfold ensure_channel connectPrim qdeclarePrim record
  simp [h1, hc, hq, countK_append, countK]

/-- Value of `_ensure_channel` in the reconnect branch when the re-declare
fails. -/
theorem ensure_eq_reconnect_qfail {α β : Type} (o : Oracle α β) (m : QM)
    (e : PyExc) (dcq dhq : Bool)
    (h1 : m.st.connOpen = false)
    (hc : o.connect (countK .connectK m.tr) = none)
    (hq : o.qdeclare (countK .qdeclareK m.tr) = .failB e dcq dhq) :
    ensure_channel o m =
      (.error e, ⟨(⟨true, true, true, m.st.queueDeclared, false⟩ : QState).applyDrop dcq dhq,
        m.tr ++ [⟨.connectK, true, m.st⟩,
                 ⟨.qdeclareK, true, ⟨true, true, true, m.st.queueDeclared, false⟩⟩]⟩) := by
  unfold ensure_channel connectPrim qdeclarePrim record
  simp [h1, hc, hq, countK_append, countK]

/-- Value of `_ensure_channel` in the reconnect branch when the reconnect
itself fails. -/
theorem ensure_eq_reconnect_cfail {α β : Type} (o : Oracle α β) (m : QM) (e : PyExc)
    (h1 : m.st.connOpen = false)
    (hc : o.connect (countK .connectK m.tr) = some e) :
    ensure_channel o m = (.error e, ⟨m.st, m.tr ++ [⟨.connectK, true, m.st⟩]⟩) := by
  unfold ensure_channel connectPrim record
  simp [h1, hc]

/-- Value of `_ensure_channel` in the channel-reinit branch when both the
channel recreation and the re-declare succeed. -/
theorem ensure_eq_reinit_ok {α β : Type} (o : Oracle α β) (m : QM)
    (h1 : m.st.connOpen = true)
    (h2 : m.st.needsReinit = true ∨ m.st.chanOpen = false)
    (hr : o.reopen (countK .reopenK m.tr) = none)
    (hq : o.qdeclare (countK .qdeclareK m.tr) = .okB) :
    ensure_channel o m =
      (.ok (), ⟨⟨m.st.connOpen, true, true, true, false⟩,
        m.tr ++
          [⟨.reopenK, true,
            ⟨m.st.connOpen, false, m.st.prefetchApplied, m.st.queueDeclared, m.st.needsReinit⟩⟩,
           ⟨.qdeclareK, true,
            ⟨m.st.connOpen, true, true, m.st.queueDeclared, m.st.needsReinit⟩⟩]⟩) := by
  unfold ensure_channel reopenPrim qdeclarePrim record
  rw [if_neg (by simp [h1])]
  rw [if_pos h2]
  simp [hr, hq, countK_append, countK]

/-- Value of `_ensure_channel` in the channel-reinit branch when the
re-declare fails. -/
theorem ensure_eq_reinit_qfail {α β : Type} (o : Oracle α β) (m : QM)
    (e : PyExc) (dcq dhq : Bool)
    (h1 : m.st.connOpen = true)
    (h2 : m.st.needsReinit = true ∨ m.st.chanOpen = false)
    (hr : o.reopen (countK .reopenK m.tr) = none)
    (hq : o.qdeclare (countK .qdeclareK m.tr) = .failB e dcq dhq) :
    ensure_channel o m =
      (.error e,
        ⟨(⟨m.st.connOpen, true, true, m.st.queueDeclared, m.st.needsReinit⟩ : QState).applyDrop
            dcq dhq,
          m.tr ++
            [⟨.reopenK, true,
              ⟨m.st.connOpen, false, m.st.prefetchApplied, m.st.queueDeclared,
                m.st.needsReinit⟩⟩,
             ⟨.qdeclareK, true,
              ⟨m.st.connOpen, true, true, m.st.queueDeclared, m.st.needsReinit⟩⟩]⟩) := by
  unfold ensure_channel reopenPrim qdeclarePrim record
  rw [if_neg (by simp [h1])]
  rw [if_pos h2]
  simp [hr, hq, countK_append, countK]

/-- Value of `_ensure_channel` in the channel-reinit branch when the channel
recreation fails. -/
theorem ensure_eq_reinit_rfail {α β : Type} (o : Oracle α β) (m : QM) (e : PyExc)
    (h1 : m.st.connOpen = true)
    (h2 : m.st.needsReinit = true ∨ m.st.chanOpen = false)
    (hr : o.reopen (countK .reopenK m.tr) = some e) :
    ensure_channel o m =
      (.error e,
        ⟨⟨m.st.connOpen, false, m.st.prefetchApplied, m.st.queueDeclared, m.st.needsReinit⟩,
          m.tr ++
            [⟨.reopenK, true,
              ⟨m.st.connOpen, false, m.st.prefetchApplied, m.st.queueDeclared,
                m.st.needsReinit⟩⟩]⟩) := by
  unfold ensure_channel reopenPrim record
  rw [if_neg (by simp [h1])]
  rw [if_pos h2]
  simp [hr]

/-- Value of `_ensure_channel` when the client is already fully usable: no
broker traffic, no state change. -/
theorem ensure_eq_noop {α β : Type} (o : Oracle α β) (m : QM)
    (h1 : m.st.connOpen = true)
    (hnr : m.st.needsReinit = false)
    (hch : m.st.chanOpen = true) :
    ensure_channel o m = (.ok (), m) := by
  unfold ensure_channel
  rw [if_neg (by simp [h1])]
  rw [if_neg (by simp [hnr, hch])]

end RabbitMQQueue

namespace RabbitMQQueue

/-- The two events appended by a recovery pass are never operation-body
calls. -/
theorem rec_events_not_op (k1 k2 : CallKind) (s1 s2 : QState)
    (hk1 : k1 = CallKind.connectK ∨ k1 = CallKind.reopenK ∨ k1 = CallKind.qdeclareK)
    (hk2 : k2 = CallKind.connectK ∨ k2 = CallKind.reopenK ∨ k2 = CallKind.qdeclareK) :
    ∀ ev ∈ [QEvent.mk k1 true s1, QEvent.mk k2 true s2], ¬ev.isOpCall := by
  intro ev hev
  rcases List.mem_cons.mp hev with rfl | hev
  · rcases hk1 with rfl | rfl | rfl <;> simp [QEvent.isOpCall]
  · have : ev = QEvent.mk k2 true s2 := by simpa using hev
    subst this
    rcases hk2 with rfl | rfl | rfl <;> simp [QEvent.isOpCall]

/-- A recovery-call event is never an operation-body call. -/
theorem ensure_event_not_op (k : CallKind) (s : QState)
    (hk : k = CallKind.connectK ∨ k = CallKind.reopenK ∨ k = CallKind.qdeclareK) :
    ¬(QEvent.mk k true s).isOpCall := by
  rcases hk with rfl | rfl | rfl <;> simp [QEvent.isOpCall]

/-- Specification of `_ensure_channel`: it preserves the state invariant
and trace well-formedness, and whenever it returns without raising it has
driven the client to the fully connected state with prefetch applied and
the queue declared. -/
theorem ensure_spec {α β : Type} (o : Oracle α β) (m : QM)
    (hinv : m.st.inv) (htr : TraceOK m.tr) :
    (ensure_channel o m).2.st.inv ∧ TraceOK (ensure_channel o m).2.tr ∧
      (∀ u, (ensure_channel o m).1 = .ok u → (ensure_channel o m).2.st.ready) := by
  obtain ⟨hpf, hqd⟩ := hinv
  by_cases h1 : m.st.connOpen = false
  · rcases hc : o.connect (countK .connectK m.tr) with _ | e
    · rcases hq : o.qdeclare (countK .qdeclareK m.tr) with _ | ⟨e, dcq, dhq⟩
      · rw [ensure_eq_reconnect_ok o m h1 hc hq]
        refine ⟨⟨fun _ => rfl, rfl⟩, ?_, fun u _ => ⟨rfl, rfl, rfl, rfl, rfl⟩⟩
        exact traceOK_append_rec _ _ htr
          (rec_events_not_op _ _ _ _ (Or.inl rfl) (Or.inr (Or.inr rfl)))
      · rw [ensure_eq_reconnect_qfail o m e dcq dhq h1 hc hq]
        refine ⟨inv_applyDrop _ dcq dhq ⟨fun _ => rfl, hqd⟩, ?_, fun u hu => absurd hu (by simp)⟩
        exact traceOK_append_rec _ _ htr
          (rec_events_not_op _ _ _ _ (Or.inl rfl) (Or.inr (Or.inr rfl)))
    · rw [ensure_eq_reconnect_cfail o m e h1 hc]
      refine ⟨⟨hpf, hqd⟩, ?_, fun u hu => absurd hu (by simp)⟩
      apply traceOK_append _ _ htr
      intro hop
      exact absurd hop (ensure_event_not_op _ _ (Or.inl rfl))
  · have h1' : m.st.connOpen = true := by
      cases hx : m.st.connOpen
      · exact absurd hx h1
      · rfl
    by_cases h2 : m.st.needsReinit = true ∨ m.st.chanOpen = false
    · rcases hr : o.reopen (countK .reopenK m.tr) with _ | e
      · rcases hq : o.qdeclare (countK .qdeclareK m.tr) with _ | ⟨e, dcq, dhq⟩
        · rw [ensure_eq_reinit_ok o m h1' h2 hr hq]
          refine ⟨⟨fun _ => rfl, rfl⟩, ?_, fun u _ => ⟨h1', rfl, rfl, rfl, rfl⟩⟩
          exact traceOK_append_rec _ _ htr
            (rec_events_not_op _ _ _ _ (Or.inr (Or.inl rfl)) (Or.inr (Or.inr rfl)))
        · rw [ensure_eq_reinit_qfail o m e dcq dhq h1' h2 hr hq]
          refine ⟨inv_applyDrop _ dcq dhq ⟨fun _ => rfl, hqd⟩, ?_,
            fun u hu => absurd hu (by simp)⟩
          exact traceOK_append_rec _ _ htr
            (rec_events_not_op _ _ _ _ (Or.inr (Or.inl rfl)) (Or.inr (Or.inr rfl)))
      · rw [ensure_eq_reinit_rfail o m e h1' h2 hr]
        refine ⟨⟨fun hcontr => absurd hcontr (by simp), hqd⟩, ?_,
          fun u hu => absurd hu (by simp)⟩
        apply traceOK_append _ _ htr
        intro hop
        exact absurd hop (ensure_event_not_op _ _ (Or.inr (Or.inl rfl)))
    · push_neg at h2
      obtain ⟨hnr, hch⟩ := h2
      have hnr' : m.st.needsReinit = false := by
        cases hx : m.st.needsReinit
        · rfl
        · exact absurd hx hnr
      have hch' : m.st.chanOpen = true := by
        cases hx : m.st.chanOpen
        · exact absurd hx hch
        · rfl
      rw [ensure_eq_noop o m h1' hnr' hch']
      exact ⟨⟨hpf, hqd⟩, htr, fun u _ => ⟨h1', hch', hnr', hpf hch', hqd⟩⟩

end RabbitMQQueue

namespace RabbitMQQueue

/-- `_push_internal` preserves the state invariant and trace
well-formedness: its only operation-body broker call is issued right after
a successful `_ensure_channel`, hence in a fully connected state. -/
theorem push_internal_spec {α β : Type} (o : Oracle α β) (d : α) (m : QM)
    (hinv : m.st.inv) (htr : TraceOK m.tr) :
    (push_internal o d m).2.st.inv ∧ TraceOK (push_internal o d m).2.tr := by
  obtain ⟨hi, ht, hr⟩ := ensure_spec o m hinv htr
  unfold push_internal
  rcases he : ensure_channel o m with ⟨r, m₁⟩
  rw [he] at hi ht hr
  cases r with
  | error e => exact ⟨hi, ht⟩
  | ok u =>
    have hready : m₁.st.ready := hr u rfl
    rcases hs : o.serialize d with _ | e
    · rcases hp : o.publish (countK .publishK m₁.tr) with _ | ⟨e, dcp, dhp⟩
      · simp only [hs, hp]
        exact ⟨hi, traceOK_append _ _ ht fun _ => hready⟩
      · simp only [hs, hp]
        exact ⟨inv_applyDrop _ _ _ hi, traceOK_append _ _ ht fun _ => hready⟩
    · simp only [hs]
      exact ⟨hi, ht⟩

/-- `push` preserves the state invariant and trace well-formedness. -/
theorem push_spec {α β : Type} (o : Oracle α β) (d : α) (m : QM)
    (hinv : m.st.inv) (htr : TraceOK m.tr) :
    (push o d m).2.st.inv ∧ TraceOK (push o d m).2.tr := by
  have hI := push_internal_spec o d m hinv htr
  unfold push
  split
  · next b m1 heq =>
    rw [heq] at hI
    exact hI
  · next e m1 heq =>
    rw [heq] at hI
    obtain ⟨hi1, ht1⟩ := hI
    split
    · have hE := ensure_spec o m1 hi1 ht1
      split
      · next e2 m2 heq2 =>
        rw [heq2] at hE
        obtain ⟨hi2, ht2, -⟩ := hE
        split
        · exact ⟨hi2, ht2⟩
        · exact ⟨hi2, ht2⟩
      · next u m2 heq2 =>
        rw [heq2] at hE
        obtain ⟨hi2, ht2, hr2⟩ := hE
        have hI3 := push_internal_spec o d m2 hi2 ht2
        split
        · next b m3 heq3 =>
          rw [heq3] at hI3
          exact hI3
        · next e3 m3 heq3 =>
          rw [heq3] at hI3
          split
          · exact ⟨hI3.1, hI3.2⟩
          · exact hI3
    · split
      · exact ⟨hi1, ht1⟩
      · exact ⟨hi1, ht1⟩

end RabbitMQQueue

namespace RabbitMQQueue

/-- `_pop_internal` preserves the state invariant and trace
well-formedness. -/
theorem pop_internal_spec {α β : Type} (o : Oracle α β) (m : QM)
    (hinv : m.st.inv) (htr : TraceOK m.tr) :
    (pop_internal o m : Except PyExc (Option (Message β)) × QM).2.st.inv ∧
      TraceOK (pop_internal o m : Except PyExc (Option (Message β)) × QM).2.tr := by
  obtain ⟨hi, ht, hr⟩ := ensure_spec o m hinv htr
  unfold pop_internal
  rcases he : ensure_channel o m with ⟨r, m₁⟩
  rw [he] at hi ht hr
  cases r with
  | error e => exact ⟨hi, ht⟩
  | ok u =>
    have hready : m₁.st.ready := hr u rfl
    rcases hg : o.basicGet (countK .getK m₁.tr) with _ | ⟨tag, raw⟩ | ⟨e, dcg, dhg⟩
    · simp only [hg]
      exact ⟨hi, traceOK_append _ _ ht fun _ => hready⟩
    · simp only [hg]
      rcases hd : o.deserialize raw with e | b <;> simp only [hd] <;>
        exact ⟨hi, traceOK_append _ _ ht fun _ => hready⟩
    · simp only [hg]
      exact ⟨inv_applyDrop _ _ _ hi, traceOK_append _ _ ht fun _ => hready⟩

/-- `pop` preserves the state invariant and trace well-formedness. -/
theorem pop_spec {α β : Type} (o : Oracle α β) (m : QM)
    (hinv : m.st.inv) (htr : TraceOK m.tr) :
    (pop o m : Except PyExc (Option (Message β)) × QM).2.st.inv ∧
      TraceOK (pop o m : Except PyExc (Option (Message β)) × QM).2.tr := by
  have hI := pop_internal_spec o m hinv htr (β := β)
  unfold pop
  split
  · next b m1 heq =>
    rw [heq] at hI
    exact hI
  · next e m1 heq =>
    rw [heq] at hI
    obtain ⟨hi1, ht1⟩ := hI
    split
    · have hE := ensure_spec o m1 hi1 ht1
      split
      · next e2 m2 heq2 =>
        rw [heq2] at hE
        obtain ⟨hi2, ht2, -⟩ := hE
        split
        · exact ⟨hi2, ht2⟩
        · exact ⟨hi2, ht2⟩
      · next u m2 heq2 =>
        rw [heq2] at hE
        obtain ⟨hi2, ht2, hr2⟩ := hE
        have hI3 := pop_internal_spec o m2 hi2 ht2 (β := β)
        split
        · next b m3 heq3 =>
          rw [heq3] at hI3
          exact hI3
        · next e3 m3 heq3 =>
          rw [heq3] at hI3
          split
          · exact ⟨hI3.1, hI3.2⟩
          · exact hI3
    · split
      · exact ⟨hi1, ht1⟩
      · exact ⟨hi1, ht1⟩

/-- `_ack_internal` preserves the state invariant and trace
well-formedness. -/
theorem ack_internal_spec {α β : Type} (o : Oracle α β) (m : QM)
    (hinv : m.st.inv) (htr : TraceOK m.tr) :
    (ack_internal o m).2.st.inv ∧ TraceOK (ack_internal o m).2.tr := by
  obtain ⟨hi, ht, hr⟩ := ensure_spec o m hinv htr
  unfold ack_internal
  rcases he : ensure_channel o m with ⟨r, m₁⟩
  rw [he] at hi ht hr
  cases r with
  | error e => exact ⟨hi, ht⟩
  | ok u =>
    have hready : m₁.st.ready := hr u rfl
    rcases ha : o.basicAck (countK .ackK m₁.tr) with _ | ⟨e, dca, dha⟩
    · simp only [ha]
      exact ⟨hi, traceOK_append _ _ ht fun _ => hready⟩
    · simp only [ha]
      exact ⟨inv_applyDrop _ _ _ hi, traceOK_append _ _ ht fun _ => hready⟩

/-- `ack` preserves the state invariant and trace well-formedness. -/
theorem ack_spec {α β : Type} (o : Oracle α β) (m : QM)
    (hinv : m.st.inv) (htr : TraceOK m.tr) :
    (ack o m).2.st.inv ∧ TraceOK (ack o m).2.tr := by
  have hI := ack_internal_spec o m hinv htr
  unfold ack
  split
  · next b m1 heq =>
    rw [heq] at hI
    exact hI
  · next e m1 heq =>
    rw [heq] at hI
    obtain ⟨hi1, ht1⟩ := hI
    split
    · have hE := ensure_spec o m1 hi1 ht1
      split
      · next e2 m2 heq2 =>
        rw [heq2] at hE
        obtain ⟨hi2, ht2, -⟩ := hE
        split
        · exact ⟨hi2, ht2⟩
        · exact ⟨hi2, ht2⟩
      · next u m2 heq2 =>
        rw [heq2] at hE
        obtain ⟨hi2, ht2, hr2⟩ := hE
        have hI3 := ack_internal_spec o m2 hi2 ht2
        split
        · next b m3 heq3 =>
          rw [heq3] at hI3
          exact hI3
        · next e3 m3 heq3 =>
          rw [heq3] at hI3
          split
          · exact ⟨hI3.1, hI3.2⟩
          · exact hI3
    · exact ⟨hi1, ht1⟩

/-- `_nack_internal` preserves the state invariant and trace
well-formedness. -/
theorem nack_internal_spec {α β : Type} (o : Oracle α β) (m : QM)
    (hinv : m.st.inv) (htr : TraceOK m.tr) :
    (nack_internal o m).2.st.inv ∧ TraceOK (nack_internal o m).2.tr := by
  obtain ⟨hi, ht, hr⟩ := ensure_spec o m hinv htr
  unfold nack_internal
  rcases he : ensure_channel o m with ⟨r, m₁⟩
  rw [he] at hi ht hr
  cases r with
  | error e => exact ⟨hi, ht⟩
  | ok u =>
    have hready : m₁.st.ready := hr u rfl
    rcases ha : o.basicNack (countK .nackK m₁.tr) with _ | ⟨e, dca, dha⟩
    · simp only [ha]
      exact ⟨hi, traceOK_append _ _ ht fun _ => hready⟩
    · simp only [ha]
      exact ⟨inv_applyDrop _ _ _ hi, traceOK_append _ _ ht fun _ => hready⟩

/-- `nack` preserves the state invariant and trace well-formedness. -/
theorem nack_spec {α β : Type} (o : Oracle α β) (m : QM)
    (hinv : m.st.inv) (htr : TraceOK m.tr) :
    (nack o m).2.st.inv ∧ TraceOK (nack o m).2.tr := by
  have hI := nack_internal_spec o m hinv htr
  unfold nack
  split
  · next b m1 heq =>
    rw [heq] at hI
    exact hI
  · next e m1 heq =>
    rw [heq] at hI
    obtain ⟨hi1, ht1⟩ := hI
    split
    · have hE := ensure_spec o m1 hi1 ht1
      split
      · next e2 m2 heq2 =>
        rw [heq2] at hE
        obtain ⟨hi2, ht2, -⟩ := hE
        split
        · exact ⟨hi2, ht2⟩
        · exact ⟨hi2, ht2⟩
      · next u m2 heq2 =>
        rw [heq2] at hE
        obtain ⟨hi2, ht2, hr2⟩ := hE
        have hI3 := nack_internal_spec o m2 hi2 ht2
        split
        · next b m3 heq3 =>
          rw [heq3] at hI3
          exact hI3
        · next e3 m3 heq3 =>
          rw [heq3] at hI3
          split
          · exact ⟨hI3.1, hI3.2⟩
          · exact hI3
    · exact ⟨hi1, ht1⟩

/-- `_empty_internal` preserves the state invariant and trace
well-formedness. -/
theorem empty_internal_spec {α β : Type} (o : Oracle α β) (m : QM)
    (hinv : m.st.inv) (htr : TraceOK m.tr) :
    (empty_internal o m).2.st.inv ∧ TraceOK (empty_internal o m).2.tr := by
  obtain ⟨hi, ht, hr⟩ := ensure_spec o m hinv htr
  unfold empty_internal
  rcases he : ensure_channel o m with ⟨r, m₁⟩
  rw [he] at hi ht hr
  cases r with
  | error e => exact ⟨hi, ht⟩
  | ok u =>
    have hready : m₁.st.ready := hr u rfl
    rcases hp : o.passive (countK .passiveK m₁.tr) with _ | ⟨e, dcp, dhp⟩
    · simp only [hp]
      exact ⟨hi, traceOK_append _ _ ht fun _ => hready⟩
    · simp only [hp]
      exact ⟨inv_applyDrop _ _ _ hi, traceOK_append _ _ ht fun _ => hready⟩

/-- `empty` preserves the state invariant and trace well-formedness. -/
theorem empty_spec {α β : Type} (o : Oracle α β) (m : QM)
    (hinv : m.st.inv) (htr : TraceOK m.tr) :
    (empty o m).2.st.inv ∧ TraceOK (empty o m).2.tr := by
  have hI := empty_internal_spec o m hinv htr
  unfold empty
  split
  · next b m1 heq =>
    rw [heq] at hI
    exact hI
  · next e m1 heq =>
    rw [heq] at hI
    obtain ⟨hi1, ht1⟩ := hI
    split
    · have hE := ensure_spec o m1 hi1 ht1
      split
      · next e2 m2 heq2 =>
        rw [heq2] at hE
        obtain ⟨hi2, ht2, -⟩ := hE
        split
        · exact ⟨hi2, ht2⟩
        · exact ⟨hi2, ht2⟩
      · next u m2 heq2 =>
        rw [heq2] at hE
        obtain ⟨hi2, ht2, hr2⟩ := hE
        have hI3 := empty_internal_spec o m2 hi2 ht2
        split
        · next b m3 heq3 =>
          rw [heq3] at hI3
          exact hI3
        · next e3 m3 heq3 =>
          rw [heq3] at hI3
          split
          · exact ⟨hI3.1, hI3.2⟩
          · exact hI3
    · split
      · exact ⟨hi1, ht1⟩
      · exact ⟨hi1, ht1⟩

/-- One ping attempt preserves the state invariant and trace
well-formedness. -/
theorem ping_attempt_spec {α β : Type} (o : Oracle α β) (m : QM)
    (hinv : m.st.inv) (htr : TraceOK m.tr) :
    (ping_attempt o m).2.st.inv ∧ TraceOK (ping_attempt o m).2.tr := by
  obtain ⟨hi, ht, hr⟩ := ensure_spec o m hinv htr
  unfold ping_attempt
  rcases he : ensure_channel o m with ⟨r, m₁⟩
  rw [he] at hi ht hr
  cases r with
  | error e => exact ⟨hi, ht⟩
  | ok u =>
    have hready : m₁.st.ready := hr u rfl
    rcases hp : o.passive (countK .passiveK m₁.tr) with _ | ⟨e, dcp, dhp⟩
    · simp only [hp]
      exact ⟨hi, traceOK_append _ _ ht fun _ => hready⟩
    · simp only [hp]
      exact ⟨inv_applyDrop _ _ _ hi, traceOK_append _ _ ht fun _ => hready⟩

/-- `ping` preserves the state invariant and trace well-formedness. -/
theorem ping_spec {α β : Type} (o : Oracle α β) (m : QM)
    (hinv : m.st.inv) (htr : TraceOK m.tr) :
    (ping o m).2.st.inv ∧ TraceOK (ping o m).2.tr := by
  have hI := ping_attempt_spec o m hinv htr
  unfold ping
  split
  · next u m1 heq =>
    rw [heq] at hI
    exact hI
  · next e m1 heq =>
    rw [heq] at hI
    obtain ⟨hi1, ht1⟩ := hI
    split
    · have hI2 := ping_attempt_spec o m1 hi1 ht1
      split
      · next u m2 heq2 =>
        rw [heq2] at hI2
        exact hI2
      · next e2 m2 heq2 =>
        rw [heq2] at hI2
        split
        · exact ⟨hI2.1, hI2.2⟩
        · exact hI2
    · split
      · exact ⟨hi1, ht1⟩
      · exact ⟨hi1, ht1⟩

/-- `declare_queue` preserves the state invariant and trace
well-formedness: its operation-body declare call is issued right after a
successful `_ensure_channel`, hence in a fully connected state. -/
theorem declare_queue_spec {α β : Type} (o : Oracle α β) (m : QM)
    (hinv : m.st.inv) (htr : TraceOK m.tr) :
    (declare_queue o m).2.st.inv ∧ TraceOK (declare_queue o m).2.tr := by
  obtain ⟨hi, ht, hr⟩ := ensure_spec o m hinv htr
  unfold declare_queue
  rcases he : ensure_channel o m with ⟨r, m₁⟩
  rw [he] at hi ht hr
  cases r with
  | error e =>
    by_cases hx : e.isExceptionCls = true
    · simp only [hx, if_true]
      exact ⟨hi, ht⟩
    · have hx' : e.isExceptionCls = false := by rwa [Bool.not_eq_true] at hx
      simp only [hx', Bool.false_eq_true, if_false]
      exact ⟨hi, ht⟩
  | ok u =>
    have hready : m₁.st.ready := hr u rfl
    unfold qdeclarePrim record
    rcases hq : o.qdeclare (countK .qdeclareK m₁.tr) with _ | ⟨e, dcq, dhq⟩
    · simp only [hq]
      exact ⟨⟨fun _ => hready.2.2.2.1, rfl⟩,
        traceOK_append _ _ ht fun _ => hready⟩
    · simp only [hq]
      split
      · refine ⟨inv_applyDrop _ dcq dhq ⟨fun _ => hready.2.2.2.1, hready.2.2.2.2⟩, ?_⟩
        exact traceOK_append _ _ ht fun _ => hready
      · refine ⟨inv_applyDrop _ dcq dhq ⟨fun _ => hready.2.2.2.1, hready.2.2.2.2⟩, ?_⟩
        exact traceOK_append _ _ ht fun _ => hready

end RabbitMQQueue

namespace RabbitMQQueue

/-- Whenever `_ensure_channel` returns without raising, the client is fully
connected (given the reachable-state invariant). -/
theorem ensure_ready {α β : Type} (o : Oracle α β) (m : QM) (hinv : m.st.inv) :
    ∀ u, (ensure_channel o m).1 = .ok u → (ensure_channel o m).2.st.ready := by
  obtain ⟨hpf, hqd⟩ := hinv
  intro u hu
  by_cases h1 : m.st.connOpen = false
  · rcases hc : o.connect (countK .connectK m.tr) with _ | e
    · rcases hq : o.qdeclare (countK .qdeclareK m.tr) with _ | ⟨e, dcq, dhq⟩
      · rw [ensure_eq_reconnect_ok o m h1 hc hq]
        exact ⟨rfl, rfl, rfl, rfl, rfl⟩
      · rw [ensure_eq_reconnect_qfail o m e dcq dhq h1 hc hq] at hu
        exact absurd hu (by simp)
    · rw [ensure_eq_reconnect_cfail o m e h1 hc] at hu
      exact absurd hu (by simp)
  · have h1' : m.st.connOpen = true := by
      cases hx : m.st.connOpen
      · exact absurd hx h1
      · rfl
    by_cases h2 : m.st.needsReinit = true ∨ m.st.chanOpen = false
    · rcases hr : o.reopen (countK .reopenK m.tr) with _ | e
      · rcases hq : o.qdeclare (countK .qdeclareK m.tr) with _ | ⟨e, dcq, dhq⟩
        · rw [ensure_eq_reinit_ok o m h1' h2 hr hq]
          exact ⟨h1', rfl, rfl, rfl, rfl⟩
        · rw [ensure_eq_reinit_qfail o m e dcq dhq h1' h2 hr hq] at hu
          exact absurd hu (by simp)
      · rw [ensure_eq_reinit_rfail o m e h1' h2 hr] at hu
        exact absurd hu (by simp)
    · push_neg at h2
      obtain ⟨hnr, hch⟩ := h2
      have hnr' : m.st.needsReinit = false := by
        cases hx : m.st.needsReinit
        · rfl
        · exact absurd hx hnr
      have hch' : m.st.chanOpen = true := by
        cases hx : m.st.chanOpen
        · exact absurd hx hch
        · rfl
      rw [ensure_eq_noop o m h1' hnr' hch']
      exact ⟨h1', hch', hnr', hpf hch', hqd⟩

/-- C4: every public operation drives the client to the CONNECTED state
before attempting its underlying broker call.  Concretely: whenever the
pre-operation check `_ensure_channel` completes it leaves the client fully
connected; when the physical connection is closed it reconnects (one
connect call); when only the channel is stale or the reinit flag is set it
recreates the channel, reapplies the prefetch limit and re-declares the
queue; and consequently, for every public operation and every broker
behaviour, every operation-body broker call recorded in the trace was
issued in a fully connected state. -/
theorem C4_connected_before_broker_call :
    (∀ (α β : Type) (o : Oracle α β) (m : QM), m.st.inv →
      ∀ u, (ensure_channel o m).1 = .ok u → (ensure_channel o m).2.st.ready) ∧
    (∀ (α β : Type) (o : Oracle α β) (m : QM), m.st.connOpen = false →
      countK .connectK (ensure_channel o m).2.tr = countK .connectK m.tr + 1) ∧
    (∀ (α β : Type) (o : Oracle α β) (m : QM), m.st.connOpen = true →
      m.st.needsReinit = true ∨ m.st.chanOpen = false →
      countK .reopenK (ensure_channel o m).2.tr = countK .reopenK m.tr + 1 ∧
      (∀ u, (ensure_channel o m).1 = .ok u →
        countK .qdeclareK (ensure_channel o m).2.tr = countK .qdeclareK m.tr + 1 ∧
        (ensure_channel o m).2.st.prefetchApplied = true ∧
        (ensure_channel o m).2.st.queueDeclared = true)) ∧
    (∀ (α β : Type) (o : Oracle α β) (d : α) (m : QM), m.st.inv → TraceOK m.tr →
      TraceOK (push o d m).2.tr ∧ TraceOK (pop o m).2.tr ∧
      TraceOK (ack o m).2.tr ∧ TraceOK (nack o m).2.tr ∧
      TraceOK (empty o m).2.tr ∧ TraceOK (ping o m).2.tr ∧
      TraceOK (declare_queue o m).2.tr) := by
  refine ⟨?_, ?_, ?_, ?_⟩
  · intro α β o m hinv
    exact ensure_ready o m hinv
  · intro α β o m h1
    rcases hc : o.connect (countK .connectK m.tr) with _ | e
    · rcases hq : o.qdeclare (countK .qdeclareK m.tr) with _ | ⟨e, dcq, dhq⟩
      · rw [ensure_eq_reconnect_ok o m h1 hc hq]
        simp [countK_append, countK]
      · rw [ensure_eq_reconnect_qfail o m e dcq dhq h1 hc hq]
        simp [countK_append, countK]
    · rw [ensure_eq_reconnect_cfail o m e h1 hc]
      simp [countK_append, countK]
  · intro α β o m h1 h2
    rcases hr : o.reopen (countK .reopenK m.tr) with _ | e
    · rcases hq : o.qdeclare (countK .qdeclareK m.tr) with _ | ⟨e, dcq, dhq⟩
      · rw [ensure_eq_reinit_ok o m h1 h2 hr hq]
        refine ⟨by simp [countK_append, countK], fun u _ => ?_⟩
        refine ⟨by simp [countK_append, countK], rfl, rfl⟩
      · rw [ensure_eq_reinit_qfail o m e dcq dhq h1 h2 hr hq]
        refine ⟨by simp [countK_append, countK], fun u hu => absurd hu (by simp)⟩
    · rw [ensure_eq_reinit_rfail o m e h1 h2 hr]
      refine ⟨by simp [countK_append, countK], fun u hu => absurd hu (by simp)⟩
  · intro α β o d m hinv htr
    exact ⟨(push_spec o d m hinv htr).2, (pop_spec o m hinv htr).2,
      (ack_spec o m hinv htr).2, (nack_spec o m hinv htr).2,
      (empty_spec o m hinv htr).2, (ping_spec o m hinv htr).2,
      (declare_queue_spec o m hinv htr).2⟩

/-- Witness for C4: from a ready state marked for reinit, with a concrete
all-ok oracle, the pre-operation check drives the client to the fully
connected state, and the trace of an ack from that state is
well-formed. -/
theorem C4_connected_before_broker_call_witness :
    (ensure_channel oAllOk staleQM).2.st.ready ∧ TraceOK (ack oAllOk staleQM).2.tr :=
  ⟨C4_connected_before_broker_call.1 Unit Unit oAllOk staleQM (by decide) () rfl,
   (C4_connected_before_broker_call.2.2.2 Unit Unit oAllOk () staleQM (by decide)
      (by intro ev hev hop; simp [staleQM] at hev)).2.2.1⟩

end RabbitMQQueue
